import Mathlib

/-!
# glslc: EGL/OpenGL-ES driver probe (`src/main.cpp`)

A shallow embedding of `loadShader`, `loadProgram` and `main`, and proofs about
the calls they make to the graphics driver.

## The driver

The graphics driver is an external collaborator.  It is modelled as a
deterministic oracle `Driver`: every entry point receives the history of all
calls completed so far (with their results) together with the arguments of the
current call, and gives the values the C++ code reads back: the return value and
the contents of the out-parameters after the call.  Quantifying over all
`Driver`s covers every driver behaviour, including drivers whose answers depend
on earlier calls.  An out-parameter the driver leaves unwritten is covered too:
the answer then is whatever the variable held.

## The program state

A `World` holds the chronological trace of completed driver calls (`Event`s) and
the chronological list of output statements executed (`Out`), each with its
operands.  Every function of the program takes a `World` and gives the `World`
after it, with its return value.  A run of `main` ends in an `Exit`: either
`main` returns a value, or an exception leaves `main` and the process is aborted.

`main` is one long function with eleven early returns.  Its straight-line blocks
are embedded as functions of their own (`configDump`, `eglInfo`, `glesInfo`,
`shaderDemo`), as are the repeated failure exit (`failWithError`) and the tail
of the function from the teardown on (`teardown`); each names the source lines
it stands for.

## Conventions

* handles (`GLuint`, `EGLDisplay`, `EGLSurface`, `EGLContext`, `EGLConfig`) and
  `EGLBoolean`/`GLenum` values are `Nat`, with 0 for the null handle and for
  `EGL_FALSE`; `GLint`/`EGLint` values are `Int`; no arithmetic is done on them
  apart from the bitwise AND of the bitmask report;
* a string-returning query (`eglQueryString`, `glGetString`, `glGetStringi`)
  gives `some s` for a C string and `none` for `NULL`, the reply of a failed
  query.  Line 203 builds a `std::string` from the reply for `EGL_EXTENSIONS`:
  from `NULL` the constructor throws `std::logic_error`, nothing catches it, and
  the process is aborted there (`Exit.aborted`).  The other replies are only
  inserted into `std::cout`, which does not end the run: the operand is recorded
  as it is (`Item.cstr`), and what the stream writes for a `NULL` operand and
  after it is not modelled;
* `std::string` values are lists of characters;
* the numeric values of the `GL_*`/`EGL_*` names are those of the Khronos
  headers `GLES3/gl3.h` and `EGL/egl.h`, which are not part of the repository.
-/

namespace Glslc

/-! ## Constants of the Khronos headers -/

def GL_NO_ERROR : Nat := 0
def GL_VENDOR : Nat := 0x1F00
def GL_RENDERER : Nat := 0x1F01
def GL_VERSION : Nat := 0x1F02
def GL_EXTENSIONS : Nat := 0x1F03
def GL_MAJOR_VERSION : Nat := 0x821B
def GL_MINOR_VERSION : Nat := 0x821C
def GL_NUM_EXTENSIONS : Nat := 0x821D
def GL_PROGRAM_BINARY_LENGTH : Nat := 0x8741
def GL_NUM_PROGRAM_BINARY_FORMATS : Nat := 0x87FE
def GL_FRAGMENT_SHADER : Nat := 0x8B30
def GL_VERTEX_SHADER : Nat := 0x8B31
def GL_COMPILE_STATUS : Nat := 0x8B81
def GL_LINK_STATUS : Nat := 0x8B82
def GL_INFO_LOG_LENGTH : Nat := 0x8B84
def GL_SHADING_LANGUAGE_VERSION : Nat := 0x8B8C
def GL_NUM_SHADER_BINARY_FORMATS : Nat := 0x8DF9
def GL_SHADER_COMPILER : Nat := 0x8DFA

def EGL_FALSE : Nat := 0
def EGL_TRUE : Nat := 1
def EGL_DEFAULT_DISPLAY : Nat := 0
def EGL_NO_DISPLAY : Nat := 0
def EGL_NO_SURFACE : Nat := 0
def EGL_NO_CONTEXT : Nat := 0

def EGL_SUCCESS : Int := 0x3000
def EGL_BLUE_SIZE : Int := 0x3022
def EGL_GREEN_SIZE : Int := 0x3023
def EGL_RED_SIZE : Int := 0x3024
def EGL_MAX_PBUFFER_HEIGHT : Int := 0x302A
def EGL_MAX_PBUFFER_PIXELS : Int := 0x302B
def EGL_MAX_PBUFFER_WIDTH : Int := 0x302C
def EGL_NATIVE_RENDERABLE : Int := 0x302D
def EGL_NATIVE_VISUAL_ID : Int := 0x302E
def EGL_NATIVE_VISUAL_TYPE : Int := 0x302F
def EGL_SURFACE_TYPE : Int := 0x3033
def EGL_NONE : Int := 0x3038
def EGL_BIND_TO_TEXTURE_RGB : Int := 0x3039
def EGL_BIND_TO_TEXTURE_RGBA : Int := 0x303A
def EGL_RENDERABLE_TYPE : Int := 0x3040
def EGL_CONFORMANT : Int := 0x3042
def EGL_VENDOR : Int := 0x3053
def EGL_VERSION : Int := 0x3054
def EGL_EXTENSIONS : Int := 0x3055
def EGL_HEIGHT : Int := 0x3056
def EGL_WIDTH : Int := 0x3057
def EGL_CONTEXT_CLIENT_VERSION : Int := 0x3098

def EGL_PBUFFER_BIT : Int := 0x0001
def EGL_PIXMAP_BIT : Int := 0x0002
def EGL_WINDOW_BIT : Int := 0x0004
def EGL_MULTISAMPLE_RESOLVE_BOX_BIT : Int := 0x0200
def EGL_SWAP_BEHAVIOR_PRESERVED_BIT : Int := 0x0400

def EGL_OPENGL_ES_BIT : Int := 0x0001
def EGL_OPENVG_BIT : Int := 0x0002
def EGL_OPENGL_ES2_BIT : Int := 0x0004
def EGL_OPENGL_BIT : Int := 0x0008
def EGL_OPENGL_ES3_BIT : Int := 0x0040

/-! ## Driver calls, output, program state -/

/-- One completed driver call: the entry point, the arguments passed by the
program and the values read back from the driver. -/
inductive Event where
  | glCreateShader (type : Nat) (ret : Nat)
  | glShaderSource (shader : Nat) (count : Nat) (src : String)
  | glCompileShader (shader : Nat)
  | glGetShaderiv (shader : Nat) (pname : Nat) (params : Int)
  | glGetShaderInfoLog (shader : Nat) (bufSize : Int) (infoLog : String)
  | glDeleteShader (shader : Nat)
  | glCreateProgram (ret : Nat)
  | glAttachShader (program : Nat) (shader : Nat)
  | glLinkProgram (program : Nat)
  | glGetProgramiv (program : Nat) (pname : Nat) (params : Int)
  | glGetProgramInfoLog (program : Nat) (bufSize : Int) (infoLog : String)
  | glDeleteProgram (program : Nat)
  | glGetString (name : Nat) (ret : Option String)
  | glGetIntegerv (pname : Nat) (data : Int)
  | glGetStringi (name : Nat) (index : Nat) (ret : Option String)
  | glGetError (ret : Nat)
  | eglGetDisplay (displayId : Nat) (ret : Nat)
  | eglInitialize (dpy : Nat) (major minor : Int) (ret : Nat)
  | eglGetConfigs (dpy : Nat) (numConfig : Int) (ret : Nat)
  | eglChooseConfig (dpy : Nat) (attribList : List Int) (config : Nat) (configSize : Nat)
      (numConfig : Int) (ret : Nat)
  | eglGetConfigAttrib (dpy : Nat) (config : Nat) (attr : Int) (value : Int) (ret : Nat)
  | eglCreatePbufferSurface (dpy : Nat) (config : Nat) (attribList : List Int) (ret : Nat)
  | eglCreateContext (dpy : Nat) (config : Nat) (shareContext : Nat) (attribList : List Int)
      (ret : Nat)
  | eglMakeCurrent (dpy : Nat) (draw read : Nat) (ctx : Nat) (ret : Nat)
  | eglQueryString (dpy : Nat) (name : Int) (ret : Option String)
  | eglDestroyContext (dpy : Nat) (ctx : Nat) (ret : Nat)
  | eglDestroySurface (dpy : Nat) (surface : Nat) (ret : Nat)
  | eglTerminate (dpy : Nat) (ret : Nat)
  | eglGetError (ret : Int)
  deriving DecidableEq, Repr

/-- One operand of a `std::cout`/`std::cerr` insertion chain. -/
inductive Item where
  | str (s : String)
  /-- A `const char*` operand read from the driver; `none` is `NULL`. -/
  | cstr (s : Option String)
  | int (i : Int)
  | hex (n : Nat)
  | endl
  deriving DecidableEq, Repr

/-- One output statement of the program. -/
inductive Out where
  | printf (fmt : String) (args : List Int)
  | cout (items : List Item)
  | cerr (items : List Item)
  deriving DecidableEq, Repr

/-- The graphics driver as an oracle: each entry point maps the history of
completed calls and the current arguments to the values the program reads back.
Entry points returning `void` (`glShaderSource`, `glCompileShader`,
`glDeleteShader`, `glAttachShader`, `glLinkProgram`, `glDeleteProgram`) give
nothing back and so have no field; they appear in the trace only.  The
string queries give `none` for `NULL`. -/
structure Driver where
  glCreateShader : List Event → Nat → Nat
  glGetShaderiv : List Event → Nat → Nat → Int
  glGetShaderInfoLog : List Event → Nat → Int → String
  glCreateProgram : List Event → Nat
  glGetProgramiv : List Event → Nat → Nat → Int
  glGetProgramInfoLog : List Event → Nat → Int → String
  glGetString : List Event → Nat → Option String
  glGetIntegerv : List Event → Nat → Int
  glGetStringi : List Event → Nat → Nat → Option String
  glGetError : List Event → Nat
  eglGetDisplay : List Event → Nat → Nat
  /-- Gives `(return value, major, minor)`. -/
  eglInitialize : List Event → Nat → Nat × Int × Int
  /-- Gives `(return value, num_config)`. -/
  eglGetConfigs : List Event → Nat → Nat × Int
  /-- Gives `(return value, config, num_config)`. -/
  eglChooseConfig : List Event → Nat → List Int → Nat → Nat × Nat × Int
  /-- Gives `(return value, value)`. -/
  eglGetConfigAttrib : List Event → Nat → Nat → Int → Nat × Int
  eglCreatePbufferSurface : List Event → Nat → Nat → List Int → Nat
  eglCreateContext : List Event → Nat → Nat → Nat → List Int → Nat
  eglMakeCurrent : List Event → Nat → Nat → Nat → Nat → Nat
  eglQueryString : List Event → Nat → Int → Option String
  eglDestroyContext : List Event → Nat → Nat → Nat
  eglDestroySurface : List Event → Nat → Nat → Nat
  eglTerminate : List Event → Nat → Nat
  eglGetError : List Event → Int

/-- Program-visible state: driver calls made so far and output written so far,
both oldest first. -/
structure World where
  trace : List Event
  out : List Out
  deriving DecidableEq, Repr

/-- State at program start. -/
def World.init : World := ⟨[], []⟩

/-- Record a completed driver call. -/
def World.emit (w : World) (e : Event) : World := ⟨w.trace ++ [e], w.out⟩

/-- Record an output statement. -/
def World.print (w : World) (o : Out) : World := ⟨w.trace, w.out ++ [o]⟩

/-- How a run of `main` ends: `main` returns `code`, or an exception that nothing
catches leaves `main` and the process is aborted without `main` returning. -/
inductive Exit where
  | returned (code : Nat)
  | aborted
  deriving DecidableEq, Repr

/-! ## `loadShader` (main.cpp lines 9-40) -/

/-- The `type_string` selection of `loadShader` (lines 26-32). -/
def typeString (type : Nat) : String :=
  let type_string := "unknown"
  let type_string := if type = GL_VERTEX_SHADER then "vertex" else type_string
  let type_string := if type = GL_FRAGMENT_SHADER then "fragment" else type_string
  type_string

/-- `GLuint loadShader(GLenum type, const GLchar* src)`. -/
def loadShader (d : Driver) (w : World) (type : Nat) (src : String) : World × Nat :=
  let shader := d.glCreateShader w.trace type
  let w := w.emit (.glCreateShader type shader)
  if shader = 0 then
    (w, 0)
  else
    let w := w.emit (.glShaderSource shader 1 src)
    let w := w.emit (.glCompileShader shader)
    let status := d.glGetShaderiv w.trace shader GL_COMPILE_STATUS
    let w := w.emit (.glGetShaderiv shader GL_COMPILE_STATUS status)
    if status = 0 then
      let len := d.glGetShaderiv w.trace shader GL_INFO_LOG_LENGTH
      let w := w.emit (.glGetShaderiv shader GL_INFO_LOG_LENGTH len)
      let w :=
        if len > 1 then
          let log := d.glGetShaderInfoLog w.trace shader len
          let w := w.emit (.glGetShaderInfoLog shader len log)
          w.print (.cerr [.str "Error compiling ", .str (typeString type), .str " shader:",
            .endl, .str log, .endl])
        else w
      let w := w.emit (.glDeleteShader shader)
      (w, 0)
    else
      (w, shader)

/-! ## `loadProgram` (main.cpp lines 42-86) -/

/-- `GLuint loadProgram(const GLchar* vshSrc, const GLchar* fshSrc)`. -/
def loadProgram (d : Driver) (w : World) (vshSrc fshSrc : String) : World × Nat :=
  let (w, vertexShader) := loadShader d w GL_VERTEX_SHADER vshSrc
  if vertexShader = 0 then
    (w, 0)
  else
    let (w, fragmentShader) := loadShader d w GL_FRAGMENT_SHADER fshSrc
    if fragmentShader = 0 then
      let w := w.emit (.glDeleteShader vertexShader)
      (w, 0)
    else
      let programObject := d.glCreateProgram w.trace
      let w := w.emit (.glCreateProgram programObject)
      if programObject = 0 then
        let w := w.emit (.glDeleteShader vertexShader)
        let w := w.emit (.glDeleteShader fragmentShader)
        (w, 0)
      else
        let w := w.emit (.glAttachShader programObject vertexShader)
        let w := w.emit (.glAttachShader programObject fragmentShader)
        let w := w.emit (.glDeleteShader vertexShader)
        let w := w.emit (.glDeleteShader fragmentShader)
        let w := w.emit (.glLinkProgram programObject)
        let status := d.glGetProgramiv w.trace programObject GL_LINK_STATUS
        let w := w.emit (.glGetProgramiv programObject GL_LINK_STATUS status)
        if status = 0 then
          let len := d.glGetProgramiv w.trace programObject GL_INFO_LOG_LENGTH
          let w := w.emit (.glGetProgramiv programObject GL_INFO_LOG_LENGTH len)
          let w :=
            if len > 1 then
              let log := d.glGetProgramInfoLog w.trace programObject len
              let w := w.emit (.glGetProgramInfoLog programObject len log)
              w.print (.cerr [.str "Error linking program:", .endl, .str log, .endl])
            else w
          let w := w.emit (.glDeleteProgram programObject)
          (w, 0)
        else
          (w, programObject)

/-! ## Resource accounting over a trace -/

/-- Effect of one call on the multiset of live shader objects: a successful
`glCreateShader` adds its handle, `glDeleteShader` removes one occurrence. -/
def shaderStep (live : List Nat) : Event → List Nat
  | .glCreateShader _ ret => if ret = 0 then live else ret :: live
  | .glDeleteShader shader => live.erase shader
  | _ => live

/-- Shader objects created and not yet deleted after the calls of `t`. -/
def liveShaders (t : List Event) : List Nat := t.foldl shaderStep []

/-- Effect of one call on the multiset of live program objects. -/
def programStep (live : List Nat) : Event → List Nat
  | .glCreateProgram ret => if ret = 0 then live else ret :: live
  | .glDeleteProgram program => live.erase program
  | _ => live

/-- Program objects created and not yet deleted after the calls of `t`. -/
def livePrograms (t : List Event) : List Nat := t.foldl programStep []

/-- Calls that create or delete a shader or program object. -/
def Event.isObjectLifecycle : Event → Bool
  | .glCreateShader _ _ => true
  | .glDeleteShader _ => true
  | .glCreateProgram _ => true
  | .glDeleteProgram _ => true
  | _ => false

/-- The calls made between state `before` and the later state `after`. -/
def newCalls (before after : World) : List Event := after.trace.drop before.trace.length

/-- State reached by `loadProgram` after a successful `glCreateProgram` giving
`p`, just before link status is queried (lines 61-69). -/
def attachAndLink (w : World) (p v f : Nat) : World :=
  (((((w.emit (.glCreateProgram p)).emit (.glAttachShader p v)).emit (.glAttachShader p f)).emit
    (.glDeleteShader v)).emit (.glDeleteShader f)).emit (.glLinkProgram p)

/-! ## `main` (main.cpp lines 88-285) -/

/-- The failure exit used after every checked EGL call:
`printf("eglGetError(): 0x%x\n", eglGetError()); return EGL_FALSE;`. -/
def failWithError (d : Driver) (w : World) : World × Exit :=
  let err := d.eglGetError w.trace
  let w := w.emit (.eglGetError err)
  let w := w.print (.printf "eglGetError(): 0x%x\n" [err])
  (w, .returned EGL_FALSE)

/-- The statement pair `eglGetConfigAttrib(display, config, attr, &value);`
followed by `printf(fmt, value);` (lines 133-150). -/
def printConfigAttrib (d : Driver) (w : World) (display config : Nat) (attr : Int)
    (fmt : String) : World :=
  let r := d.eglGetConfigAttrib w.trace display config attr
  let w := w.emit (.eglGetConfigAttrib display config attr r.2 r.1)
  w.print (.printf fmt [r.2])

/-- The five `printf` statements decoding `EGL_RENDERABLE_TYPE` (lines 152-156). -/
def decodeRenderableType (value : Int) : List Out :=
  [ .printf "  EGL_RENDERABLE_TYPE EGL_OPENGL_ES_BIT = %d\n" [Int.land value EGL_OPENGL_ES_BIT],
    .printf "  EGL_RENDERABLE_TYPE EGL_OPENGL_ES2_BIT = %d\n" [Int.land value EGL_OPENGL_ES2_BIT],
    .printf "  EGL_RENDERABLE_TYPE EGL_OPENGL_ES3_BIT = %d\n" [Int.land value EGL_OPENGL_ES3_BIT],
    .printf "  EGL_RENDERABLE_TYPE EGL_OPENGL_BIT = %d\n" [Int.land value EGL_OPENGL_BIT],
    .printf "  EGL_RENDERABLE_TYPE EGL_OPENVG_BIT = %d\n" [Int.land value EGL_OPENVG_BIT] ]

/-- The five `printf` statements decoding `EGL_SURFACE_TYPE` (lines 158-162). -/
def decodeSurfaceType (value : Int) : List Out :=
  [ .printf "  EGL_SURFACE_TYPE EGL_MULTISAMPLE_RESOLVE_BOX_BIT = %d\n"
      [Int.land value EGL_MULTISAMPLE_RESOLVE_BOX_BIT],
    .printf "  EGL_SURFACE_TYPE EGL_PBUFFER_BIT = %d\n" [Int.land value EGL_PBUFFER_BIT],
    .printf "  EGL_SURFACE_TYPE EGL_PIXMAP_BIT = %d\n" [Int.land value EGL_PIXMAP_BIT],
    .printf "  EGL_SURFACE_TYPE EGL_SWAP_BEHAVIOR_PRESERVED_BIT = %d\n"
      [Int.land value EGL_SWAP_BEHAVIOR_PRESERVED_BIT],
    .printf "  EGL_SURFACE_TYPE EGL_WINDOW_BIT = %d\n" [Int.land value EGL_WINDOW_BIT] ]

/-- The block reporting the chosen configuration (lines 130-163). -/
def configDump (d : Driver) (w : World) (display config : Nat) (numConfigs : Int) : World :=
  let w := w.print (.printf "eglChooseConfig(): config = %p, num = %d\n" [config, numConfigs])
  let w := printConfigAttrib d w display config EGL_BIND_TO_TEXTURE_RGB
    "  EGL_BIND_TO_TEXTURE_RGB = %d\n"
  let w := printConfigAttrib d w display config EGL_BIND_TO_TEXTURE_RGBA
    "  EGL_BIND_TO_TEXTURE_RGBA = %d\n"
  let w := printConfigAttrib d w display config EGL_CONFORMANT "  EGL_CONFORMANT = %d\n"
  let w := printConfigAttrib d w display config EGL_MAX_PBUFFER_WIDTH
    "  EGL_MAX_PBUFFER_WIDTH = %d\n"
  let w := printConfigAttrib d w display config EGL_MAX_PBUFFER_HEIGHT
    "  EGL_MAX_PBUFFER_HEIGHT = %d\n"
  let w := printConfigAttrib d w display config EGL_MAX_PBUFFER_PIXELS
    "  EGL_MAX_PBUFFER_PIXELS = %d\n"
  let w := printConfigAttrib d w display config EGL_NATIVE_RENDERABLE
    "  EGL_NATIVE_RENDERABLE = %d\n"
  let w := printConfigAttrib d w display config EGL_NATIVE_VISUAL_ID
    "  EGL_NATIVE_VISUAL_ID = %d\n"
  let w := printConfigAttrib d w display config EGL_NATIVE_VISUAL_TYPE
    "  EGL_NATIVE_VISUAL_TYPE = %d\n"
  let r := d.eglGetConfigAttrib w.trace display config EGL_RENDERABLE_TYPE
  let w := w.emit (.eglGetConfigAttrib display config EGL_RENDERABLE_TYPE r.2 r.1)
  let w : World := ⟨w.trace, w.out ++ decodeRenderableType r.2⟩
  let r := d.eglGetConfigAttrib w.trace display config EGL_SURFACE_TYPE
  let w := w.emit (.eglGetConfigAttrib display config EGL_SURFACE_TYPE r.2 r.1)
  ⟨w.trace, w.out ++ decodeSurfaceType r.2⟩

/-- `std::string::find(" ", start)` for a one-character needle `c`; `none` is
`std::string::npos`. -/
def find (s : List Char) (c : Char) (start : Nat) : Option Nat :=
  let i := (s.drop start).indexOf c
  if i < (s.drop start).length then some (start + i) else none

/-- `std::string::substr(start, n)`. -/
def substr (s : List Char) (start n : Nat) : List Char := (s.drop start).take n

/-- `std::string::substr(start)`. -/
def substrFrom (s : List Char) (start : Nat) : List Char := s.drop start

/-- The `while (1)` tokenization loop over the extension string (lines 205-214),
entered with the current value of `start`. -/
def extLoop (exts : List Char) (start : Nat) (w : World) : World :=
  match h : find exts ' ' start with
  | none => w.print (.cout [.str "  ", .str (String.mk (substrFrom exts start)), .endl])
  | some pos =>
    extLoop exts (pos + 1)
      (w.print (.cout [.str "  ", .str (String.mk (substr exts start (pos - start))), .endl]))
termination_by exts.length - start
decreasing_by
  unfold find at h
  simp only at h
  split_ifs at h with hlt
  simp only [Option.some.injEq] at h
  simp only [List.length_drop] at hlt
  omega

/-- The block reporting the EGL strings (lines 199-215).  It gives `.ok` with
the state after the block, or `.error` with the state in which the constructor
`std::string {eglQueryString(display, EGL_EXTENSIONS)}` of line 203 throws
`std::logic_error`, its argument being `NULL`. -/
def eglInfo (d : Driver) (w : World) (display : Nat) : Except World World :=
  let s := d.eglQueryString w.trace display EGL_VENDOR
  let w := w.emit (.eglQueryString display EGL_VENDOR s)
  let w := w.print (.cout [.str "EGL_VENDOR: ", .cstr s, .endl])
  let s := d.eglQueryString w.trace display EGL_VERSION
  let w := w.emit (.eglQueryString display EGL_VERSION s)
  let w := w.print (.cout [.str "EGL_VERSION: ", .cstr s, .endl])
  let w := w.print (.cout [.str "EGL_EXTENSIONS: ", .endl])
  let reply := d.eglQueryString w.trace display EGL_EXTENSIONS
  let w := w.emit (.eglQueryString display EGL_EXTENSIONS reply)
  match reply with
  | none => .error w
  | some exts => .ok (extLoop exts.data 0 w)

/-- The statement pair `std::cout << label << glGetString(name) << std::endl`. -/
def printGLString (d : Driver) (w : World) (name : Nat) (label : String) : World :=
  let s := d.glGetString w.trace name
  let w := w.emit (.glGetString name s)
  w.print (.cout [.str label, .cstr s, .endl])

/-- The statement pair `glGetIntegerv(pname, &value); std::cout << label << value
<< std::endl`; also gives the value read. -/
def printGLInteger (d : Driver) (w : World) (pname : Nat) (label : String) : World × Int :=
  let value := d.glGetIntegerv w.trace pname
  let w := w.emit (.glGetIntegerv pname value)
  (w.print (.cout [.str label, .int value, .endl]), value)

/-- The loop `for (GLint i = 0; i < value; ++i)` over the extension names
(lines 237-239), with `n` iterations left and loop variable `i`. -/
def glExtLoop (d : Driver) : Nat → Nat → World → World
  | 0, _, w => w
  | n + 1, i, w =>
    let s := d.glGetStringi w.trace GL_EXTENSIONS i
    let w := w.emit (.glGetStringi GL_EXTENSIONS i s)
    let w := w.print (.cout [.str "  ", .cstr s, .endl])
    glExtLoop d n (i + 1) w

/-- The block reporting the GLES strings and integers (lines 219-240). -/
def glesInfo (d : Driver) (w : World) : World :=
  let w := printGLString d w GL_VENDOR "GL_VENDOR: "
  let w := printGLString d w GL_RENDERER "GL_RENDERER: "
  let w := printGLString d w GL_VERSION "GL_VERSION: "
  let w := printGLString d w GL_SHADING_LANGUAGE_VERSION "GL_SHADING_LANGUAGE_VERSION: "
  let w := (printGLInteger d w GL_MAJOR_VERSION "GL_MAJOR_VERSION: ").1
  let w := (printGLInteger d w GL_MINOR_VERSION "GL_MINOR_VERSION: ").1
  let w := (printGLInteger d w GL_NUM_PROGRAM_BINARY_FORMATS "GL_NUM_PROGRAM_BINARY_FORMATS: ").1
  let w := (printGLInteger d w GL_NUM_SHADER_BINARY_FORMATS "GL_NUM_SHADER_BINARY_FORMATS: ").1
  let w := (printGLInteger d w GL_SHADER_COMPILER "GL_SHADER_COMPILER: ").1
  let r := printGLInteger d w GL_NUM_EXTENSIONS "GL_NUM_EXTENSIONS: "
  glExtLoop d r.2.toNat 0 r.1

/-- The vertex shader source passed by `main` (line 242). -/
def vshSrc : String := "#version 300 es\n" ++ "void main() {gl_Position = vec4(0.0);}"

/-- The fragment shader source passed by `main` (line 243). -/
def fshSrc : String :=
  "#version 300 es\n" ++ "precision mediump float;" ++
    "out vec4 fragColor; void main() {fragColor = vec4(1.0);}"

/-- The shader demonstration and the GL error report (lines 241-257). -/
def shaderDemo (d : Driver) (w : World) : World :=
  let (w, programObject) := loadProgram d w vshSrc fshSrc
  let w :=
    if programObject ≠ 0 then
      let binary_len := d.glGetProgramiv w.trace programObject GL_PROGRAM_BINARY_LENGTH
      let w := w.emit (.glGetProgramiv programObject GL_PROGRAM_BINARY_LENGTH binary_len)
      let w := w.print (.cout [.str "program binary length: ", .int binary_len, .endl])
      w.emit (.glDeleteProgram programObject)
    else w
  let glerr := d.glGetError w.trace
  let w := w.emit (.glGetError glerr)
  if glerr = GL_NO_ERROR then
    w.print (.cout [.str "glGetError(): ", .str "GL_NO_ERROR", .endl])
  else
    w.print (.cout [.str "glGetError(): 0x", .hex glerr, .endl])

/-- The teardown sequence and the final return (lines 260-284). -/
def teardown (d : Driver) (w : World) (display surface context : Nat) : World × Exit :=
  let ret := d.eglMakeCurrent w.trace display EGL_NO_SURFACE EGL_NO_SURFACE EGL_NO_CONTEXT
  let w := w.emit (.eglMakeCurrent display EGL_NO_SURFACE EGL_NO_SURFACE EGL_NO_CONTEXT ret)
  if ret = 0 then failWithError d w else
  let ret := d.eglDestroyContext w.trace display context
  let w := w.emit (.eglDestroyContext display context ret)
  if ret = 0 then failWithError d w else
  let ret := d.eglDestroySurface w.trace display surface
  let w := w.emit (.eglDestroySurface display surface ret)
  if ret = 0 then failWithError d w else
  let ret := d.eglTerminate w.trace display
  let w := w.emit (.eglTerminate display ret)
  if ret = 0 then failWithError d w else
  let err := d.eglGetError w.trace
  let w := w.emit (.eglGetError err)
  let w :=
    if err = EGL_SUCCESS then w.print (.printf "eglGetError(): EGL_SUCCESS\n" [])
    else w.print (.printf "eglGetError(): 0x%x\n" [err])
  (w, .returned EGL_TRUE)

/-- The attribute list passed to `eglChooseConfig` (lines 112-124). -/
def attribList : List Int :=
  [ EGL_SURFACE_TYPE, EGL_PBUFFER_BIT,
    EGL_RENDERABLE_TYPE, EGL_OPENGL_ES3_BIT,
    EGL_RED_SIZE, 8,
    EGL_GREEN_SIZE, 8,
    EGL_BLUE_SIZE, 8,
    EGL_NONE ]

/-- The attribute list passed to `eglCreatePbufferSurface` (lines 167-172). -/
def pbufferAttribs : List Int := [EGL_WIDTH, 32, EGL_HEIGHT, 32, EGL_NONE]

/-- The attribute list passed to `eglCreateContext` (lines 183-187). -/
def contextAttribs : List Int := [EGL_CONTEXT_CLIENT_VERSION, 3, EGL_NONE]

/-- `int main(int argc, char* argv[])`; the arguments are not used.  The
exception thrown inside the block of lines 199-215 is caught nowhere, so the run
ends there (`Exit.aborted`) with nothing after line 203 executed. -/
def main (d : Driver) : World × Exit :=
  let w := World.init
  let display := d.eglGetDisplay w.trace EGL_DEFAULT_DISPLAY
  let w := w.emit (.eglGetDisplay EGL_DEFAULT_DISPLAY display)
  if display = EGL_NO_DISPLAY then failWithError d w else
  let r := d.eglInitialize w.trace display
  let w := w.emit (.eglInitialize display r.2.1 r.2.2 r.1)
  if r.1 = 0 then failWithError d w else
  let w := w.print (.printf "eglInitialize(): major = %d, minor = %d\n" [r.2.1, r.2.2])
  let r := d.eglGetConfigs w.trace display
  let w := w.emit (.eglGetConfigs display r.2 r.1)
  if r.1 = 0 then failWithError d w else
  let w := w.print (.printf "eglGetConfigs(): num = %d\n" [r.2])
  let r := d.eglChooseConfig w.trace display attribList 1
  let config := r.2.1
  let numConfigs := r.2.2
  let w := w.emit (.eglChooseConfig display attribList config 1 numConfigs r.1)
  if r.1 = 0 then failWithError d w else
  let w := configDump d w display config numConfigs
  let surface := d.eglCreatePbufferSurface w.trace display config pbufferAttribs
  let w := w.emit (.eglCreatePbufferSurface display config pbufferAttribs surface)
  if surface = EGL_NO_SURFACE then failWithError d w else
  let context := d.eglCreateContext w.trace display config EGL_NO_CONTEXT contextAttribs
  let w := w.emit (.eglCreateContext display config EGL_NO_CONTEXT contextAttribs context)
  if context = EGL_NO_CONTEXT then failWithError d w else
  let ret := d.eglMakeCurrent w.trace display surface surface context
  let w := w.emit (.eglMakeCurrent display surface surface context ret)
  if ret = 0 then failWithError d w else
  match eglInfo d w display with
  | .error w => (w, .aborted)
  | .ok w =>
    let w := glesInfo d w
    let w := shaderDemo d w
    teardown d w display surface context

/-! ## Concrete drivers -/

/-- A driver on which every call succeeds: handles are fresh non-zero numbers,
every status is true, every string query gives the empty string. -/
def okDriver : Driver where
  glCreateShader := fun h _ => h.length + 1
  glGetShaderiv := fun _ _ pname => if pname = GL_COMPILE_STATUS then 1 else 0
  glGetShaderInfoLog := fun _ _ _ => ""
  glCreateProgram := fun h => h.length + 1
  glGetProgramiv := fun _ _ pname => if pname = GL_LINK_STATUS then 1 else 0
  glGetProgramInfoLog := fun _ _ _ => ""
  glGetString := fun _ _ => some ""
  glGetIntegerv := fun _ _ => 0
  glGetStringi := fun _ _ _ => some ""
  glGetError := fun _ => GL_NO_ERROR
  eglGetDisplay := fun _ _ => 1
  eglInitialize := fun _ _ => (EGL_TRUE, 1, 5)
  eglGetConfigs := fun _ _ => (EGL_TRUE, 1)
  eglChooseConfig := fun _ _ _ _ => (EGL_TRUE, 1, 1)
  eglGetConfigAttrib := fun _ _ _ _ => (EGL_TRUE, 0)
  eglCreatePbufferSurface := fun _ _ _ _ => 2
  eglCreateContext := fun _ _ _ _ _ => 3
  eglMakeCurrent := fun _ _ _ _ _ => EGL_TRUE
  eglQueryString := fun _ _ _ => some ""
  eglDestroyContext := fun _ _ _ => EGL_TRUE
  eglDestroySurface := fun _ _ _ => EGL_TRUE
  eglTerminate := fun _ _ => EGL_TRUE
  eglGetError := fun _ => EGL_SUCCESS

/-- As `okDriver`, but every compilation fails, with a two-character log. -/
def compileFailDriver : Driver :=
  { okDriver with
    glGetShaderiv := fun _ _ pname => if pname = GL_COMPILE_STATUS then 0 else 2
    glGetShaderInfoLog := fun _ _ _ => "e" }

/-- As `okDriver`, but linking fails, with an empty log. -/
def linkFailDriver : Driver :=
  { okDriver with glGetProgramiv := fun _ _ _ => 0 }

/-- As `okDriver`, but `eglGetConfigs` fails. -/
def getConfigsFailDriver : Driver :=
  { okDriver with eglGetConfigs := fun _ _ => (EGL_FALSE, 0) }

/-- As `okDriver`, but `eglChooseConfig` fails. -/
def chooseFailDriver : Driver :=
  { okDriver with eglChooseConfig := fun _ _ _ _ => (EGL_FALSE, 0, 0) }

/-- As `okDriver`, but `eglChooseConfig` returns `EGL_TRUE` and reports that
zero configurations match. -/
def noMatchDriver : Driver :=
  { okDriver with eglChooseConfig := fun _ _ _ _ => (EGL_TRUE, 0, 0) }

/-- As `okDriver`, but `eglCreatePbufferSurface` gives `EGL_NO_SURFACE`. -/
def noSurfaceDriver : Driver :=
  { okDriver with eglCreatePbufferSurface := fun _ _ _ _ => EGL_NO_SURFACE }

/-- As `okDriver`, but `eglQueryString` gives `NULL` for `EGL_EXTENSIONS`. -/
def nullExtensionsDriver : Driver :=
  { okDriver with
    eglQueryString := fun _ _ name => if name = EGL_EXTENSIONS then none else some "" }

/-! ## Classification of calls -/

/-- Position of a call in the bootstrap sequence `eglGetDisplay`, `eglInitialize`,
`eglGetConfigs`, `eglChooseConfig`, `eglCreatePbufferSurface`, `eglCreateContext`,
`eglMakeCurrent` with a context; `none` for every other call. -/
def Event.bootStep : Event → Option Nat
  | .eglGetDisplay _ _ => some 1
  | .eglInitialize _ _ _ _ => some 2
  | .eglGetConfigs _ _ _ => some 3
  | .eglChooseConfig _ _ _ _ _ _ => some 4
  | .eglCreatePbufferSurface _ _ _ _ => some 5
  | .eglCreateContext _ _ _ _ _ => some 6
  | .eglMakeCurrent _ _ _ ctx _ => if ctx = EGL_NO_CONTEXT then none else some 7
  | _ => none

/-- Position of a call in the teardown sequence: the unbinding `eglMakeCurrent`,
`eglDestroyContext`, `eglDestroySurface`, `eglTerminate`; `none` for every other
call. -/
def Event.teardownStep : Event → Option Nat
  | .eglMakeCurrent _ _ _ ctx _ => if ctx = EGL_NO_CONTEXT then some 1 else none
  | .eglDestroyContext _ _ _ => some 2
  | .eglDestroySurface _ _ _ => some 3
  | .eglTerminate _ _ => some 4
  | _ => none

/-- Teardown call. -/
def Event.isTeardown (e : Event) : Bool := e.teardownStep.isSome

/-- The entry points that set up, bind and release the EGL session:
`eglInitialize`, `eglChooseConfig`, `eglCreatePbufferSurface`, `eglCreateContext`,
`eglMakeCurrent`, `eglDestroyContext`, `eglDestroySurface`, `eglTerminate`. -/
def Event.isSessionCall : Event → Bool
  | .eglInitialize _ _ _ _ => true
  | .eglChooseConfig _ _ _ _ _ _ => true
  | .eglCreatePbufferSurface _ _ _ _ => true
  | .eglCreateContext _ _ _ _ _ => true
  | .eglMakeCurrent _ _ _ _ _ => true
  | .eglDestroyContext _ _ _ => true
  | .eglDestroySurface _ _ _ => true
  | .eglTerminate _ _ => true
  | _ => false

/-- Bootstrap or teardown call. -/
def Event.isLifecycle (e : Event) : Bool := e.bootStep.isSome || e.isTeardown

/-- A bootstrap or teardown call that reported failure: a null handle or
`EGL_FALSE`. -/
def Event.failed : Event → Bool
  | .eglGetDisplay _ ret => ret = EGL_NO_DISPLAY
  | .eglInitialize _ _ _ ret => ret = 0
  | .eglGetConfigs _ _ ret => ret = 0
  | .eglChooseConfig _ _ _ _ _ ret => ret = 0
  | .eglCreatePbufferSurface _ _ _ ret => ret = EGL_NO_SURFACE
  | .eglCreateContext _ _ _ _ ret => ret = EGL_NO_CONTEXT
  | .eglMakeCurrent _ _ _ _ ret => ret = 0
  | .eglDestroyContext _ _ ret => ret = 0
  | .eglDestroySurface _ _ ret => ret = 0
  | .eglTerminate _ ret => ret = 0
  | _ => false

/-- The configuration attribute query `eglGetConfigAttrib`. -/
def Event.isConfigQuery : Event → Bool
  | .eglGetConfigAttrib _ _ _ _ _ => true
  | _ => false

/-- Capability-probing calls. -/
def Event.isProbe : Event → Bool
  | .eglGetConfigAttrib _ _ _ _ _ => true
  | .eglQueryString _ _ _ => true
  | .glGetString _ _ => true
  | .glGetIntegerv _ _ => true
  | .glGetStringi _ _ _ => true
  | _ => false

/-- Shader-pipeline calls. -/
def Event.isShaderPipeline : Event → Bool
  | .glCreateShader _ _ => true
  | .glShaderSource _ _ _ => true
  | .glCompileShader _ => true
  | .glGetShaderiv _ _ _ => true
  | .glGetShaderInfoLog _ _ _ => true
  | .glDeleteShader _ => true
  | .glCreateProgram _ => true
  | .glAttachShader _ _ => true
  | .glLinkProgram _ => true
  | .glGetProgramiv _ _ _ => true
  | .glGetProgramInfoLog _ _ _ => true
  | .glDeleteProgram _ => true
  | _ => false

/-- Effect of one call on the initialized displays. -/
def displayStep (live : List Nat) : Event → List Nat
  | .eglInitialize dpy _ _ ret => if ret = 0 then live else dpy :: live
  | .eglTerminate dpy ret => if ret = 0 then live else live.erase dpy
  | _ => live

/-- Displays initialized and not yet terminated after the calls of `t`. -/
def liveDisplays (t : List Event) : List Nat := t.foldl displayStep []

/-- Effect of one call on the existing surfaces. -/
def surfaceStep (live : List Nat) : Event → List Nat
  | .eglCreatePbufferSurface _ _ _ ret => if ret = EGL_NO_SURFACE then live else ret :: live
  | .eglDestroySurface _ surface ret => if ret = 0 then live else live.erase surface
  | _ => live

/-- Surfaces created and not yet destroyed after the calls of `t`. -/
def liveSurfaces (t : List Event) : List Nat := t.foldl surfaceStep []

/-- Effect of one call on the existing contexts. -/
def contextStep (live : List Nat) : Event → List Nat
  | .eglCreateContext _ _ _ _ ret => if ret = EGL_NO_CONTEXT then live else ret :: live
  | .eglDestroyContext _ ctx ret => if ret = 0 then live else live.erase ctx
  | _ => live

/-- Contexts created and not yet destroyed after the calls of `t`. -/
def liveContexts (t : List Event) : List Nat := t.foldl contextStep []

/-! ## Shape of a run of `main` -/

/-- The values `main` reads back from the driver during one run, in the order it
reads them; a field holds a default when the run ends before the value is read,
and `err` is the value of the one `eglGetError` call that ends the run. -/
structure Run where
  display : Nat := 0
  major : Int := 0
  minor : Int := 0
  initRet : Nat := 0
  numConfigs0 : Int := 0
  getConfigsRet : Nat := 0
  config : Nat := 0
  numConfigs : Int := 0
  chooseRet : Nat := 0
  /-- Calls of `configDump`. -/
  dump : List Event := []
  surface : Nat := 0
  context : Nat := 0
  bindRet : Nat := 0
  /-- The reply to `eglQueryString(display, EGL_EXTENSIONS)` was `NULL`: the run
  is aborted at line 203. -/
  nullExts : Bool := false
  /-- Calls of `eglInfo` and, unless the run is aborted there, of `glesInfo`. -/
  info : List Event := []
  /-- Calls of `loadProgram`. -/
  load : List Event := []
  program : Nat := 0
  binaryLen : Int := 0
  glerr : Nat := 0
  unbindRet : Nat := 0
  destroyContextRet : Nat := 0
  destroySurfaceRet : Nat := 0
  terminateRet : Nat := 0
  err : Int := 0

/-- Calls of the shader demonstration (lines 241-257): the calls `load` of
`loadProgram`, which gave `program`, then the binary-length query and deletion of
a non-null program, then `glGetError`. -/
def demoCalls (load : List Event) (program : Nat) (binaryLen : Int) (glerr : Nat) :
    List Event :=
  load ++
    (if program ≠ 0 then
      [.glGetProgramiv program GL_PROGRAM_BINARY_LENGTH binaryLen, .glDeleteProgram program]
    else []) ++ [.glGetError glerr]

/-- Calls of the teardown (lines 260-284) when the driver answers `unbindRet`,
`destroyContextRet`, `destroySurfaceRet`, `terminateRet` and finally `err`. -/
def tearCalls (display surface context unbindRet destroyContextRet destroySurfaceRet
    terminateRet : Nat) (err : Int) : List Event :=
  .eglMakeCurrent display EGL_NO_SURFACE EGL_NO_SURFACE EGL_NO_CONTEXT unbindRet ::
  if unbindRet = 0 then [.eglGetError err] else
  .eglDestroyContext display context destroyContextRet ::
  if destroyContextRet = 0 then [.eglGetError err] else
  .eglDestroySurface display surface destroySurfaceRet ::
  if destroySurfaceRet = 0 then [.eglGetError err] else
  .eglTerminate display terminateRet :: [.eglGetError err]

/-- Value returned by the teardown for these answers. -/
def tearResult (unbindRet destroyContextRet destroySurfaceRet terminateRet : Nat) : Nat :=
  if unbindRet = 0 ∨ destroyContextRet = 0 ∨ destroySurfaceRet = 0 ∨ terminateRet = 0 then
    EGL_FALSE
  else EGL_TRUE

/-- Calls of the shader demonstration for the values of `r`. -/
def Run.demo (r : Run) : List Event := demoCalls r.load r.program r.binaryLen r.glerr

/-- Calls of the teardown for the values of `r`. -/
def Run.tear (r : Run) : List Event :=
  tearCalls r.display r.surface r.context r.unbindRet r.destroyContextRet r.destroySurfaceRet
    r.terminateRet r.err

/-- The trace of the run of `main` that reads the values of `r`. -/
def Run.trace (r : Run) : List Event :=
  .eglGetDisplay EGL_DEFAULT_DISPLAY r.display ::
  if r.display = EGL_NO_DISPLAY then [.eglGetError r.err] else
  .eglInitialize r.display r.major r.minor r.initRet ::
  if r.initRet = 0 then [.eglGetError r.err] else
  .eglGetConfigs r.display r.numConfigs0 r.getConfigsRet ::
  if r.getConfigsRet = 0 then [.eglGetError r.err] else
  .eglChooseConfig r.display attribList r.config 1 r.numConfigs r.chooseRet ::
  if r.chooseRet = 0 then [.eglGetError r.err] else
  r.dump ++ .eglCreatePbufferSurface r.display r.config pbufferAttribs r.surface ::
  if r.surface = EGL_NO_SURFACE then [.eglGetError r.err] else
  .eglCreateContext r.display r.config EGL_NO_CONTEXT contextAttribs r.context ::
  if r.context = EGL_NO_CONTEXT then [.eglGetError r.err] else
  .eglMakeCurrent r.display r.surface r.surface r.context r.bindRet ::
  if r.bindRet = 0 then [.eglGetError r.err] else
  if r.nullExts = true then r.info else
  r.info ++ r.demo ++ r.tear

/-- The end of the run of `main` that reads the values of `r`. -/
def Run.result (r : Run) : Exit :=
  if r.display = EGL_NO_DISPLAY ∨ r.initRet = 0 ∨ r.getConfigsRet = 0 ∨ r.chooseRet = 0 ∨
      r.surface = EGL_NO_SURFACE ∨ r.context = EGL_NO_CONTEXT ∨ r.bindRet = 0 then
    .returned EGL_FALSE
  else if r.nullExts = true then .aborted
  else .returned (tearResult r.unbindRet r.destroyContextRet r.destroySurfaceRet r.terminateRet)

/-- The segments of `r` hold calls of the right kind, an aborted run holds the
`NULL` reply for `EGL_EXTENSIONS`, and the shader demonstration leaves no shader
object and at most the returned program. -/
structure Run.Valid (r : Run) : Prop where
  dump : ∀ e ∈ r.dump, ∃ a v ret, e = .eglGetConfigAttrib r.display r.config a v ret
  info : ∀ e ∈ r.info, e.isProbe = true ∧ e.isLifecycle = false ∧ e.isShaderPipeline = false
  nullExts : r.nullExts = true → Event.eglQueryString r.display EGL_EXTENSIONS none ∈ r.info
  load : ∀ e ∈ r.load, e.isShaderPipeline = true
  shaders : liveShaders r.load = []
  programs : livePrograms r.load = if r.program = 0 then [] else [r.program]

/-- Each status or handle of `r` that decides the control flow of `main` is an
answer of the driver `d`, and so is a `NULL` reply for `EGL_EXTENSIONS`. -/
structure Run.From (d : Driver) (r : Run) : Prop where
  display : ∃ h x, r.display = d.eglGetDisplay h x
  initRet : ∃ h x, r.initRet = (d.eglInitialize h x).1
  getConfigsRet : ∃ h x, r.getConfigsRet = (d.eglGetConfigs h x).1
  chooseRet : ∃ h x a n, r.chooseRet = (d.eglChooseConfig h x a n).1
  surface : ∃ h x c a, r.surface = d.eglCreatePbufferSurface h x c a
  context : ∃ h x c s a, r.context = d.eglCreateContext h x c s a
  bindRet : ∃ h x s t c, r.bindRet = d.eglMakeCurrent h x s t c
  unbindRet : ∃ h x s t c, r.unbindRet = d.eglMakeCurrent h x s t c
  destroyContextRet : ∃ h x c, r.destroyContextRet = d.eglDestroyContext h x c
  destroySurfaceRet : ∃ h x s, r.destroySurfaceRet = d.eglDestroySurface h x s
  terminateRet : ∃ h x, r.terminateRet = d.eglTerminate h x
  nullExts : r.nullExts = true → ∃ h x, d.eglQueryString h x EGL_EXTENSIONS = none

/-- A run whose status and handle fields are answers of `d` to calls that are
never compared; it fills the fields a run of `main` does not read. -/
def Run.ofDriver (d : Driver) : Run where
  display := d.eglGetDisplay [] 0
  initRet := (d.eglInitialize [] 0).1
  getConfigsRet := (d.eglGetConfigs [] 0).1
  chooseRet := (d.eglChooseConfig [] 0 [] 0).1
  surface := d.eglCreatePbufferSurface [] 0 0 []
  context := d.eglCreateContext [] 0 0 0 []
  bindRet := d.eglMakeCurrent [] 0 0 0 0
  unbindRet := d.eglMakeCurrent [] 0 0 0 0
  destroyContextRet := d.eglDestroyContext [] 0 0
  destroySurfaceRet := d.eglDestroySurface [] 0 0
  terminateRet := d.eglTerminate [] 0

/-- All seven bootstrap steps of the run succeeded. -/
def Run.Bootstrapped (r : Run) : Prop :=
  r.display ≠ EGL_NO_DISPLAY ∧ r.initRet ≠ 0 ∧ r.getConfigsRet ≠ 0 ∧ r.chooseRet ≠ 0 ∧
    r.surface ≠ EGL_NO_SURFACE ∧ r.context ≠ EGL_NO_CONTEXT ∧ r.bindRet ≠ 0

/-- Every EGL call that reports a status or gives a handle or a string succeeds
on `d`, whatever was called before; for `eglQueryString` success is a reply
other than `NULL`. -/
structure Driver.EglSucceeds (d : Driver) : Prop where
  eglGetDisplay : ∀ h x, d.eglGetDisplay h x ≠ EGL_NO_DISPLAY
  eglInitialize : ∀ h x, (d.eglInitialize h x).1 ≠ 0
  eglGetConfigs : ∀ h x, (d.eglGetConfigs h x).1 ≠ 0
  eglChooseConfig : ∀ h x a n, (d.eglChooseConfig h x a n).1 ≠ 0
  eglCreatePbufferSurface : ∀ h x c a, d.eglCreatePbufferSurface h x c a ≠ EGL_NO_SURFACE
  eglCreateContext : ∀ h x c s a, d.eglCreateContext h x c s a ≠ EGL_NO_CONTEXT
  eglMakeCurrent : ∀ h x s t c, d.eglMakeCurrent h x s t c ≠ 0
  eglDestroyContext : ∀ h x c, d.eglDestroyContext h x c ≠ 0
  eglDestroySurface : ∀ h x s, d.eglDestroySurface h x s ≠ 0
  eglTerminate : ∀ h x, d.eglTerminate h x ≠ 0
  eglQueryString : ∀ h x n, d.eglQueryString h x n ≠ none

/-! ## Bitmask decoding: the reading of the specification -/

/-- The known bits of `EGL_RENDERABLE_TYPE`, each with the format of the line
that reports it. -/
def renderableBits : List (String × Int) :=
  [ ("  EGL_RENDERABLE_TYPE EGL_OPENGL_ES_BIT = %d\n", EGL_OPENGL_ES_BIT),
    ("  EGL_RENDERABLE_TYPE EGL_OPENGL_ES2_BIT = %d\n", EGL_OPENGL_ES2_BIT),
    ("  EGL_RENDERABLE_TYPE EGL_OPENGL_ES3_BIT = %d\n", EGL_OPENGL_ES3_BIT),
    ("  EGL_RENDERABLE_TYPE EGL_OPENGL_BIT = %d\n", EGL_OPENGL_BIT),
    ("  EGL_RENDERABLE_TYPE EGL_OPENVG_BIT = %d\n", EGL_OPENVG_BIT) ]

/-- The known bits of `EGL_SURFACE_TYPE`, each with the format of the line that
reports it. -/
def surfaceBits : List (String × Int) :=
  [ ("  EGL_SURFACE_TYPE EGL_MULTISAMPLE_RESOLVE_BOX_BIT = %d\n",
      EGL_MULTISAMPLE_RESOLVE_BOX_BIT),
    ("  EGL_SURFACE_TYPE EGL_PBUFFER_BIT = %d\n", EGL_PBUFFER_BIT),
    ("  EGL_SURFACE_TYPE EGL_PIXMAP_BIT = %d\n", EGL_PIXMAP_BIT),
    ("  EGL_SURFACE_TYPE EGL_SWAP_BEHAVIOR_PRESERVED_BIT = %d\n",
      EGL_SWAP_BEHAVIOR_PRESERVED_BIT),
    ("  EGL_SURFACE_TYPE EGL_WINDOW_BIT = %d\n", EGL_WINDOW_BIT) ]

/-- Decoding of a raw value against a table of bits, taken in the order of the
table: one line per bit, reporting the value AND the bit. -/
def decodeWith (table : List (String × Int)) (value : Int) : List Out :=
  table.map fun fb => Out.printf fb.1 [Int.land value fb.2]

/-- The flags a list of output lines reports as non-zero, by the format of their
line. -/
def reportedFlags (out : List Out) : List String :=
  out.filterMap fun o =>
    match o with
    | .printf fmt [x] => if x ≠ 0 then some fmt else none
    | _ => none

/-- The flags of a table whose bit has a non-zero AND with the raw value. -/
def knownFlags (table : List (String × Int)) (value : Int) : List String :=
  (table.filter fun fb => Int.land value fb.2 ≠ 0).map fun fb => fb.1

/-! ## Basic facts about traces -/

theorem liveShaders_append (t u : List Event) :
    liveShaders (t ++ u) = u.foldl shaderStep (liveShaders t) := by
  simp [liveShaders, List.foldl_append]

theorem livePrograms_append (t u : List Event) :
    livePrograms (t ++ u) = u.foldl programStep (livePrograms t) := by
  simp [livePrograms, List.foldl_append]

theorem newCalls_mk (w : World) (l : List Event) (o : List Out) :
    newCalls w ⟨w.trace ++ l, o⟩ = l := by
  simp [newCalls]

/-! ## `loadShader` -/

/-- Every run of `loadShader` adds the handle it gives (if any) to the live shader
objects and leaves the live program objects as they were. -/
theorem loadShader_live (d : Driver) (w : World) (type : Nat) (src : String) :
    liveShaders (loadShader d w type src).1.trace =
        (if (loadShader d w type src).2 = 0 then liveShaders w.trace
         else (loadShader d w type src).2 :: liveShaders w.trace) ∧
      livePrograms (loadShader d w type src).1.trace = livePrograms w.trace := by
  unfold loadShader
  simp only [World.emit, World.print]
  split_ifs <;>
    simp_all [liveShaders_append, livePrograms_append, shaderStep, programStep]

/-- C2: when `glCreateShader` gives zero, `loadShader` gives zero and the
refused creation is the only call it makes.  When the driver gives a non-zero
handle and then reports compile status false, `loadShader` gives zero, the only
shader or program object calls it makes are the creation of that handle followed
by one `glDeleteShader` on that same handle, the deletion is its last call, and
the live shader objects after the call are those before it (so their number is
unchanged). -/
theorem loadShader_failure_no_leak (d : Driver) (w : World) (type : Nat) (src : String) :
    (d.glCreateShader w.trace type = 0 →
      loadShader d w type src = (w.emit (.glCreateShader type 0), 0)) ∧
    (d.glCreateShader w.trace type ≠ 0 →
      d.glGetShaderiv
        (w.trace ++ [.glCreateShader type (d.glCreateShader w.trace type),
          .glShaderSource (d.glCreateShader w.trace type) 1 src,
          .glCompileShader (d.glCreateShader w.trace type)])
        (d.glCreateShader w.trace type) GL_COMPILE_STATUS = 0 →
      (loadShader d w type src).2 = 0 ∧
      (newCalls w (loadShader d w type src).1).filter Event.isObjectLifecycle =
        [.glCreateShader type (d.glCreateShader w.trace type),
         .glDeleteShader (d.glCreateShader w.trace type)] ∧
      (newCalls w (loadShader d w type src).1).getLast? =
        some (.glDeleteShader (d.glCreateShader w.trace type)) ∧
      liveShaders (loadShader d w type src).1.trace = liveShaders w.trace ∧
      (liveShaders (loadShader d w type src).1.trace).length =
        (liveShaders w.trace).length) := by
  constructor
  · intro h
    simp [loadShader, World.emit, h]
  · intro h hst
    have key : ∀ l : List Event, ∀ o : List Out,
        newCalls w ⟨w.trace ++ l, o⟩ = l := newCalls_mk w
    unfold loadShader
    simp only [World.emit, World.print, h, if_false, List.append_assoc, List.singleton_append,
      List.cons_append, List.nil_append, hst, if_true]
    split_ifs <;>
      simp [key, liveShaders_append, shaderStep, Event.isObjectLifecycle, h,
        List.getLast?_cons_cons]

/-- C2 at a concrete input: a driver that creates the shader and then reports
compile status false. -/
theorem loadShader_failure_no_leak_witness :
    (loadShader compileFailDriver World.init GL_VERTEX_SHADER "x").2 = 0 ∧
    liveShaders (loadShader compileFailDriver World.init GL_VERTEX_SHADER "x").1.trace =
      liveShaders World.init.trace :=
  have h := (loadShader_failure_no_leak compileFailDriver World.init GL_VERTEX_SHADER "x").2
    (by decide) (by decide)
  ⟨h.1, h.2.2.2.1⟩

/-! ## `loadProgram` -/

/-- C1: in each of the four failure outcomes `loadProgram` gives zero and every
shader object it created has been deleted: after a failed vertex shader it stops
at once; after a failed fragment shader it deletes the vertex shader; after a
refused `glCreateProgram` it deletes both shaders; after a failed link its object
calls are creation of the program, deletion of both shaders and, last, deletion
of the program.  The live shader objects after the call are those before it, and
when it gives zero so are the live program objects. -/
theorem loadProgram_failure_cleanup (d : Driver) (w : World) (vsh fsh : String) :
    let r1 := loadShader d w GL_VERTEX_SHADER vsh
    let r2 := loadShader d r1.1 GL_FRAGMENT_SHADER fsh
    let p := d.glCreateProgram r2.1.trace
    let status := d.glGetProgramiv (attachAndLink r2.1 p r1.2 r2.2).trace p GL_LINK_STATUS
    let res := loadProgram d w vsh fsh
    (r1.2 = 0 → res = (r1.1, 0)) ∧
    (r1.2 ≠ 0 → r2.2 = 0 → res = (r2.1.emit (.glDeleteShader r1.2), 0)) ∧
    (r1.2 ≠ 0 → r2.2 ≠ 0 → p = 0 →
      res = (((r2.1.emit (.glCreateProgram 0)).emit (.glDeleteShader r1.2)).emit
        (.glDeleteShader r2.2), 0)) ∧
    (r1.2 ≠ 0 → r2.2 ≠ 0 → p ≠ 0 → status = 0 →
      res.2 = 0 ∧
      (newCalls r2.1 res.1).filter Event.isObjectLifecycle =
        [.glCreateProgram p, .glDeleteShader r1.2, .glDeleteShader r2.2, .glDeleteProgram p] ∧
      (newCalls r2.1 res.1).getLast? = some (.glDeleteProgram p)) ∧
    (res.2 = 0 ↔ (r1.2 = 0 ∨ r2.2 = 0 ∨ p = 0 ∨ status = 0)) ∧
    liveShaders res.1.trace = liveShaders w.trace ∧
    (res.2 = 0 → livePrograms res.1.trace = livePrograms w.trace) := by
  dsimp only
  have l1 := loadShader_live d w GL_VERTEX_SHADER vsh
  rcases h1 : loadShader d w GL_VERTEX_SHADER vsh with ⟨w1, v⟩
  rw [h1] at l1
  dsimp only at l1 ⊢
  have l2 := loadShader_live d w1 GL_FRAGMENT_SHADER fsh
  rcases h2 : loadShader d w1 GL_FRAGMENT_SHADER fsh with ⟨w2, f⟩
  rw [h2] at l2
  dsimp only at l2 ⊢
  have key : ∀ l : List Event, ∀ o : List Out,
      newCalls w2 ⟨w2.trace ++ l, o⟩ = l := newCalls_mk w2
  unfold loadProgram
  simp only [h1, h2, attachAndLink, World.emit, World.print, List.append_assoc,
    List.singleton_append, List.cons_append, List.nil_append]
  by_cases hv : v = 0
  · simp [hv] at l1 ⊢
    exact l1
  by_cases hf : f = 0
  · simp [hv, hf, liveShaders_append, livePrograms_append, shaderStep, programStep] at l1 l2 ⊢
    simp [l1, l2]
  by_cases hp : d.glCreateProgram w2.trace = 0
  · simp [hv, hf, hp, liveShaders_append, livePrograms_append, shaderStep, programStep]
      at l1 l2 ⊢
    simp [l1, l2, List.erase_cons]
    split_ifs <;> simp_all
  simp only [hv, hf, hp, if_false] at l1 l2 ⊢
  split_ifs with hs hl
  all_goals
    simp [hv, hf, hp, hs, key, liveShaders_append, livePrograms_append, shaderStep,
      programStep, Event.isObjectLifecycle, List.getLast?_cons_cons, l1, l2, List.erase_cons]
  all_goals
    first
    | done
    | (split_ifs <;> simp_all)

/-- C1 at a concrete input: a driver on which both shaders compile, the program
is created and linking fails. -/
theorem loadProgram_failure_cleanup_witness :
    (loadProgram linkFailDriver World.init "v" "f").2 = 0 ∧
    (newCalls (loadShader linkFailDriver
        (loadShader linkFailDriver World.init GL_VERTEX_SHADER "v").1 GL_FRAGMENT_SHADER "f").1
      (loadProgram linkFailDriver World.init "v" "f").1).filter Event.isObjectLifecycle =
      [.glCreateProgram 9, .glDeleteShader 1, .glDeleteShader 5, .glDeleteProgram 9] :=
  have h := (loadProgram_failure_cleanup linkFailDriver World.init "v" "f").2.2.2.1
    (by decide) (by decide) (by decide) (by decide)
  ⟨h.1, h.2.1⟩

theorem newCalls_spec (w w' : World) (l : List Event) (h : w'.trace = w.trace ++ l) :
    newCalls w w' = l := by
  simp [newCalls, h]

theorem configDump_trace (d : Driver) (w : World) (dpy cfg : Nat) (n : Int) :
    ∃ l, (configDump d w dpy cfg n).trace = w.trace ++ l ∧
      ∀ e ∈ l, ∃ a v ret, e = .eglGetConfigAttrib dpy cfg a v ret := by
  unfold configDump
  simp only [printConfigAttrib, World.emit, World.print, List.append_assoc,
    List.singleton_append, List.cons_append, List.nil_append]
  refine ⟨_, rfl, ?_⟩
  intro e he
  simp only [List.mem_cons, List.mem_singleton, List.not_mem_nil, or_false] at he
  rcases he with h | h | h | h | h | h | h | h | h | h | h <;> exact ⟨_, _, _, h⟩

theorem extLoop_trace (exts : List Char) (start : Nat) (w : World) :
    (extLoop exts start w).trace = w.trace := by
  induction start, w using extLoop.induct exts with
  | case1 start w h =>
    rw [extLoop, h]
    rfl
  | case2 start w pos h ih =>
    rw [extLoop, h]
    simpa [World.print] using ih

/-- The block of the EGL strings makes three `eglQueryString` calls; it either
completes, or it throws on a `NULL` reply for `EGL_EXTENSIONS`. -/
theorem eglInfo_run (d : Driver) (w : World) (dpy : Nat) :
    ∃ l, (∀ e ∈ l, e.isProbe = true ∧ e.isLifecycle = false ∧ e.isShaderPipeline = false) ∧
      ((∃ w1, eglInfo d w dpy = .ok w1 ∧ w1.trace = w.trace ++ l) ∨
       (∃ w1, eglInfo d w dpy = .error w1 ∧ w1.trace = w.trace ++ l ∧
          Event.eglQueryString dpy EGL_EXTENSIONS none ∈ l ∧
          ∃ h x, d.eglQueryString h x EGL_EXTENSIONS = none)) := by
  unfold eglInfo
  simp only [World.emit, World.print, List.append_assoc,
    List.singleton_append, List.cons_append, List.nil_append]
  generalize d.eglQueryString w.trace dpy EGL_VENDOR = vendor
  generalize d.eglQueryString _ dpy EGL_VERSION = version
  generalize hr : d.eglQueryString _ dpy EGL_EXTENSIONS = reply
  have hp : ∀ e ∈ [Event.eglQueryString dpy EGL_VENDOR vendor,
      Event.eglQueryString dpy EGL_VERSION version,
      Event.eglQueryString dpy EGL_EXTENSIONS reply],
      e.isProbe = true ∧ e.isLifecycle = false ∧ e.isShaderPipeline = false := by
    intro e he
    simp only [List.mem_cons, List.mem_singleton, List.not_mem_nil, or_false] at he
    rcases he with h | h | h <;> subst h <;> exact ⟨rfl, rfl, rfl⟩
  refine ⟨_, hp, ?_⟩
  cases reply with
  | none =>
    exact Or.inr ⟨_, rfl, rfl, List.mem_cons_of_mem _ (List.mem_cons_of_mem _
      (List.mem_singleton_self _)), _, _, hr⟩
  | some exts =>
    exact Or.inl ⟨_, rfl, by simp only [extLoop_trace]⟩

theorem glExtLoop_trace (d : Driver) (n i : Nat) (w : World) :
    ∃ l, (glExtLoop d n i w).trace = w.trace ++ l ∧
      ∀ e ∈ l, e.isProbe = true ∧ e.isLifecycle = false ∧ e.isShaderPipeline = false := by
  induction n generalizing i w with
  | zero => exact ⟨[], by simp [glExtLoop], by simp⟩
  | succ n ih =>
    obtain ⟨l, hl, hp⟩ := ih (i + 1)
      ((w.emit (.glGetStringi GL_EXTENSIONS i (d.glGetStringi w.trace GL_EXTENSIONS i))).print
        (.cout [.str "  ", .cstr (d.glGetStringi w.trace GL_EXTENSIONS i), .endl]))
    refine ⟨.glGetStringi GL_EXTENSIONS i (d.glGetStringi w.trace GL_EXTENSIONS i) :: l, ?_, ?_⟩
    · rw [glExtLoop]
      simp only [World.emit, World.print] at hl ⊢
      rw [hl, List.append_assoc, List.singleton_append]
    · intro e he
      rcases List.mem_cons.1 he with h | h
      · subst h
        exact ⟨rfl, rfl, rfl⟩
      · exact hp e h

theorem glesInfo_trace (d : Driver) (w : World) :
    ∃ l, (glesInfo d w).trace = w.trace ++ l ∧
      ∀ e ∈ l, e.isProbe = true ∧ e.isLifecycle = false ∧ e.isShaderPipeline = false := by
  unfold glesInfo
  simp only []
  generalize hr : printGLInteger d _ GL_NUM_EXTENSIONS "GL_NUM_EXTENSIONS: " = r
  obtain ⟨l, hl, hp⟩ := glExtLoop_trace d r.2.toNat 0 r.1
  rw [hl, ← hr]
  simp only [printGLInteger, printGLString, World.emit, World.print, List.append_assoc,
    List.singleton_append, List.cons_append, List.nil_append]
  refine ⟨_, rfl, ?_⟩
  intro e he
  simp only [List.mem_cons, List.mem_append] at he
  rcases he with h | h | h | h | h | h | h | h | h | h | h
  any_goals (subst h; exact ⟨rfl, rfl, rfl⟩)
  exact hp e h

theorem loadShader_run (d : Driver) (w : World) (type : Nat) (src : String) :
    ∃ l, (loadShader d w type src).1.trace = w.trace ++ l ∧
      (∀ e ∈ l, e.isShaderPipeline = true) ∧
      (∀ L, l.foldl shaderStep L =
        if (loadShader d w type src).2 = 0 then L else (loadShader d w type src).2 :: L) ∧
      (∀ L, l.foldl programStep L = L) := by
  unfold loadShader
  simp only [World.emit, World.print, List.append_assoc, List.singleton_append,
    List.cons_append, List.nil_append]
  generalize d.glCreateShader w.trace type = s
  by_cases h1 : s = 0
  · simp only [h1, if_true]
    refine ⟨_, rfl, ?_, ?_, ?_⟩
    · simp [Event.isShaderPipeline]
    · simp [shaderStep]
    · simp [programStep]
  simp only [h1, if_false]
  generalize d.glGetShaderiv _ s GL_COMPILE_STATUS = st
  by_cases h2 : st = 0
  · simp only [h2, if_true]
    generalize d.glGetShaderiv _ s GL_INFO_LOG_LENGTH = len
    by_cases h3 : len > 1
    · simp only [h3, if_true, List.append_assoc, List.singleton_append,
        List.cons_append, List.nil_append]
      refine ⟨_, rfl, ?_, ?_, ?_⟩
      · simp [Event.isShaderPipeline]
      · simp [shaderStep, h1]
      · simp [programStep]
    · simp only [h3, if_false, List.append_assoc, List.singleton_append,
        List.cons_append, List.nil_append]
      refine ⟨_, rfl, ?_, ?_, ?_⟩
      · simp [Event.isShaderPipeline]
      · simp [shaderStep, h1]
      · simp [programStep]
  · simp only [h2, h1, if_false]
    refine ⟨_, rfl, ?_, ?_, ?_⟩
    · simp [Event.isShaderPipeline]
    · simp [shaderStep, h1]
    · simp [programStep]

theorem loadProgram_run (d : Driver) (w : World) (vsh fsh : String) :
    ∃ l, (loadProgram d w vsh fsh).1.trace = w.trace ++ l ∧
      (∀ e ∈ l, e.isShaderPipeline = true) ∧
      (∀ L, l.foldl shaderStep L = L) ∧
      (∀ L, l.foldl programStep L =
        if (loadProgram d w vsh fsh).2 = 0 then L else (loadProgram d w vsh fsh).2 :: L) := by
  obtain ⟨l1, t1, p1, s1, g1⟩ := loadShader_run d w GL_VERTEX_SHADER vsh
  rcases h1 : loadShader d w GL_VERTEX_SHADER vsh with ⟨w1, v⟩
  rw [h1] at t1 s1
  dsimp only at t1 s1
  obtain ⟨l2, t2, p2, s2, g2⟩ := loadShader_run d w1 GL_FRAGMENT_SHADER fsh
  rcases h2 : loadShader d w1 GL_FRAGMENT_SHADER fsh with ⟨w2, f⟩
  rw [h2] at t2 s2
  dsimp only at t2 s2
  unfold loadProgram
  simp only [h1, h2, World.emit, World.print]
  by_cases hv : v = 0
  · simp only [hv, if_true] at s1 ⊢
    exact ⟨l1, t1, p1, s1, g1⟩
  simp only [hv, if_false] at s1 ⊢
  have em : ∀ e ∈ l1 ++ l2, e.isShaderPipeline = true := by
    intro e he
    rcases List.mem_append.1 he with h | h
    · exact p1 e h
    · exact p2 e h
  have tr : ∀ l3 : List Event, w2.trace ++ l3 = w.trace ++ (l1 ++ l2 ++ l3) := by
    intro l3
    simp only [t1, t2, List.append_assoc]
  by_cases hf : f = 0
  · simp only [hf, if_true] at s2 ⊢
    refine ⟨l1 ++ l2 ++ [.glDeleteShader v], tr _, ?_, ?_, ?_⟩
    · intro e he
      rcases List.mem_append.1 he with h | h
      · exact em e h
      · rw [List.mem_singleton.1 h]
        rfl
    · intro L
      simp [List.foldl_append, s1, s2, shaderStep]
    · intro L
      simp [List.foldl_append, g1, g2, programStep]
  simp only [hf, if_false] at s2 ⊢
  have sh : ∀ L l3, List.foldl shaderStep L
      (l1 ++ l2 ++ l3) = List.foldl shaderStep (f :: v :: L) l3 := by
    intro L l3
    simp only [List.foldl_append, s1, s2]
  have pr : ∀ L l3, List.foldl programStep L
      (l1 ++ l2 ++ l3) = List.foldl programStep L l3 := by
    intro L l3
    simp only [List.foldl_append, g1, g2]
  have er : ∀ L : List Nat, ((f :: v :: L).erase v).erase f = L := by
    intro L
    by_cases hfv : f = v
    · subst hfv
      simp
    · have hvf : ¬ v = f := fun h => hfv h.symm
      simp [List.erase_cons, hfv, hvf]
  generalize d.glCreateProgram w2.trace = p
  by_cases hp : p = 0
  · simp only [hp, if_true, List.append_assoc, List.singleton_append,
      List.cons_append, List.nil_append]
    refine ⟨l1 ++ l2 ++ _, tr _, ?_, ?_, ?_⟩
    · intro e he
      rcases List.mem_append.1 he with h | h
      · exact em e h
      · simp only [List.mem_cons, List.mem_singleton, List.not_mem_nil, or_false] at h
        rcases h with h | h | h <;> subst h <;> rfl
    · intro L
      rw [sh]
      simpa [shaderStep] using er L
    · intro L
      rw [pr]
      simp [programStep]
  simp only [hp, if_false, List.append_assoc, List.singleton_append,
    List.cons_append, List.nil_append]
  generalize d.glGetProgramiv _ p GL_LINK_STATUS = st
  by_cases hs : st = 0
  · simp only [hs, if_true]
    generalize d.glGetProgramiv _ p GL_INFO_LOG_LENGTH = len
    by_cases hl : len > 1
    · simp only [hl, if_true, List.append_assoc, List.singleton_append,
        List.cons_append, List.nil_append]
      refine ⟨l1 ++ l2 ++ _, tr _, ?_, ?_, ?_⟩
      · intro e he
        rcases List.mem_append.1 he with h | h
        · exact em e h
        · simp only [List.mem_cons, List.mem_singleton, List.not_mem_nil, or_false] at h
          rcases h with h | h | h | h | h | h | h | h | h | h <;> subst h <;> rfl
      · intro L
        rw [sh]
        simpa [shaderStep] using er L
      · intro L
        rw [pr]
        simp [programStep, hp]
    · simp only [hl, if_false, List.append_assoc, List.singleton_append,
        List.cons_append, List.nil_append]
      refine ⟨l1 ++ l2 ++ _, tr _, ?_, ?_, ?_⟩
      · intro e he
        rcases List.mem_append.1 he with h | h
        · exact em e h
        · simp only [List.mem_cons, List.mem_singleton, List.not_mem_nil, or_false] at h
          rcases h with h | h | h | h | h | h | h | h | h <;> subst h <;> rfl
      · intro L
        rw [sh]
        simpa [shaderStep] using er L
      · intro L
        rw [pr]
        simp [programStep, hp]
  · simp only [hs, hp, if_false]
    refine ⟨l1 ++ l2 ++ _, tr _, ?_, ?_, ?_⟩
    · intro e he
      rcases List.mem_append.1 he with h | h
      · exact em e h
      · simp only [List.mem_cons, List.mem_singleton, List.not_mem_nil, or_false] at h
        rcases h with h | h | h | h | h | h | h <;> subst h <;> rfl
    · intro L
      rw [sh]
      simpa [shaderStep] using er L
    · intro L
      rw [pr]
      simp [programStep, hp]

theorem shaderDemo_run (d : Driver) (w : World) :
    ∃ load program binaryLen glerr,
      (shaderDemo d w).trace = w.trace ++ demoCalls load program binaryLen glerr ∧
      (∀ e ∈ load, e.isShaderPipeline = true) ∧
      (∀ L, load.foldl shaderStep L = L) ∧
      (∀ L, load.foldl programStep L = if program = 0 then L else program :: L) := by
  obtain ⟨l, t, p, s, g⟩ := loadProgram_run d w vshSrc fshSrc
  rcases h : loadProgram d w vshSrc fshSrc with ⟨w1, prog⟩
  rw [h] at t g
  dsimp only at t g
  unfold shaderDemo
  simp only [h]
  by_cases hp : prog = 0
  · subst hp
    simp only [ne_eq, not_true_eq_false, if_false, World.emit, World.print]
    generalize d.glGetError _ = ge
    refine ⟨l, 0, 0, ge, ?_, p, s, g⟩
    split_ifs <;> simp [demoCalls, t]
  · simp only [hp, ne_eq, not_false_eq_true, if_true, World.emit, World.print]
    generalize d.glGetProgramiv w1.trace prog _ = bl
    generalize d.glGetError _ = ge
    refine ⟨l, prog, bl, ge, ?_, p, s, g⟩
    split_ifs <;> simp [demoCalls, hp, t]

theorem teardown_run (d : Driver) (w : World) (dpy surf ctx : Nat) :
    ∃ r8 r9 r10 r11 err,
      (∃ h x s t c, r8 = d.eglMakeCurrent h x s t c) ∧
      (∃ h x c, r9 = d.eglDestroyContext h x c) ∧
      (∃ h x s, r10 = d.eglDestroySurface h x s) ∧
      (∃ h x, r11 = d.eglTerminate h x) ∧
      (teardown d w dpy surf ctx).1.trace = w.trace ++ tearCalls dpy surf ctx r8 r9 r10 r11 err ∧
      (teardown d w dpy surf ctx).2 = .returned (tearResult r8 r9 r10 r11) := by
  unfold teardown
  simp only [World.emit, World.print, failWithError, List.append_assoc, List.singleton_append,
    List.cons_append, List.nil_append]
  generalize e8 : d.eglMakeCurrent w.trace dpy EGL_NO_SURFACE EGL_NO_SURFACE EGL_NO_CONTEXT = r8
  by_cases h8 : r8 = 0
  · simp only [h8, if_true]
    generalize d.eglGetError _ = err
    refine ⟨0, d.eglDestroyContext [] 0 0, d.eglDestroySurface [] 0 0, d.eglTerminate [] 0,
      err, ⟨_, _, _, _, _, (e8.trans h8).symm⟩, ⟨_, _, _, rfl⟩, ⟨_, _, _, rfl⟩, ⟨_, _, rfl⟩,
      ?_, ?_⟩
    · simp only [if_true, tearCalls]
    · simp only [if_true, tearResult, true_or]
  simp only [h8, if_false]
  generalize e9 : d.eglDestroyContext _ dpy ctx = r9
  by_cases h9 : r9 = 0
  · simp only [h9, if_true]
    generalize d.eglGetError _ = err
    refine ⟨r8, 0, d.eglDestroySurface [] 0 0, d.eglTerminate [] 0,
      err, ⟨_, _, _, _, _, e8.symm⟩, ⟨_, _, _, (e9.trans h9).symm⟩, ⟨_, _, _, rfl⟩,
      ⟨_, _, rfl⟩, ?_, ?_⟩
    · simp only [h8, if_true, if_false, tearCalls]
    · simp only [if_true, tearResult, true_or, or_true]
  simp only [h9, if_false]
  generalize e10 : d.eglDestroySurface _ dpy surf = r10
  by_cases h10 : r10 = 0
  · simp only [h10, if_true]
    generalize d.eglGetError _ = err
    refine ⟨r8, r9, 0, d.eglTerminate [] 0,
      err, ⟨_, _, _, _, _, e8.symm⟩, ⟨_, _, _, e9.symm⟩, ⟨_, _, _, (e10.trans h10).symm⟩,
      ⟨_, _, rfl⟩, ?_, ?_⟩
    · simp only [h8, h9, if_true, if_false, tearCalls]
    · simp only [if_true, tearResult, true_or, or_true]
  simp only [h10, if_false]
  generalize e11 : d.eglTerminate _ dpy = r11
  by_cases h11 : r11 = 0
  · simp only [h11, if_true]
    generalize d.eglGetError _ = err
    refine ⟨r8, r9, r10, 0,
      err, ⟨_, _, _, _, _, e8.symm⟩, ⟨_, _, _, e9.symm⟩, ⟨_, _, _, e10.symm⟩,
      ⟨_, _, (e11.trans h11).symm⟩, ?_, ?_⟩
    · simp only [h8, h9, h10, if_false, tearCalls]
    · simp only [if_true, tearResult, or_true]
  · simp only [h11, if_false]
    generalize d.eglGetError _ = err
    refine ⟨r8, r9, r10, r11,
      err, ⟨_, _, _, _, _, e8.symm⟩, ⟨_, _, _, e9.symm⟩, ⟨_, _, _, e10.symm⟩,
      ⟨_, _, e11.symm⟩, ?_, ?_⟩
    · simp only [h8, h9, h10, if_false, tearCalls]
      split_ifs <;> rfl
    · simp only [h8, h9, h10, h11, if_false, tearResult, or_self]

/-! ## Every run of `main` has the shape of a `Run` -/

theorem Run.From.ofDriver (d : Driver) : (Run.ofDriver d).From d :=
  ⟨⟨_, _, rfl⟩, ⟨_, _, rfl⟩, ⟨_, _, rfl⟩, ⟨_, _, _, _, rfl⟩, ⟨_, _, _, _, rfl⟩,
    ⟨_, _, _, _, _, rfl⟩, ⟨_, _, _, _, _, rfl⟩, ⟨_, _, _, _, _, rfl⟩, ⟨_, _, _, rfl⟩,
    ⟨_, _, _, rfl⟩, ⟨_, _, rfl⟩, fun h => Bool.noConfusion h⟩

theorem main_run (d : Driver) :
    ∃ r : Run, r.Valid ∧ r.From d ∧ (main d).1.trace = r.trace ∧ (main d).2 = r.result ∧
      (r.Bootstrapped → r.nullExts = false →
        ∃ w, main d = teardown d (shaderDemo d w) r.display r.surface r.context) := by
  have hb := Run.From.ofDriver d
  unfold main
  simp only [World.init, World.emit, World.print, failWithError, List.nil_append,
    List.append_assoc, List.singleton_append, List.cons_append]
  generalize e1 : d.eglGetDisplay [] EGL_DEFAULT_DISPLAY = dpy
  by_cases h1 : dpy = EGL_NO_DISPLAY
  · simp only [h1, if_true]
    generalize d.eglGetError _ = err
    refine ⟨{ Run.ofDriver d with display := EGL_NO_DISPLAY, err := err }, ?_,
      { hb with display := ⟨_, _, (e1.trans h1).symm⟩ }, ?_, ?_, ?_⟩
    · constructor <;> simp [Run.ofDriver, liveShaders, livePrograms]
    · simp [Run.trace]
    · simp [Run.result]
    · exact fun hk => absurd rfl hk.1
  simp only [h1, if_false]
  generalize e2 : d.eglInitialize _ dpy = a2
  obtain ⟨ret2, maj, min⟩ := a2
  replace e2 := (congrArg Prod.fst e2).symm
  simp only at e2 ⊢
  by_cases h2 : ret2 = 0
  · simp only [h2, if_true]
    generalize d.eglGetError _ = err
    refine ⟨{ Run.ofDriver d with
        display := dpy, major := maj, minor := min, initRet := 0,
        err := err }, ?_,
      { hb with display := ⟨_, _, e1.symm⟩, initRet := ⟨_, _, h2 ▸ e2⟩ }, ?_, ?_, ?_⟩
    · constructor <;> simp [Run.ofDriver, liveShaders, livePrograms]
    · simp [Run.trace, h1]
    · simp [Run.result]
    · exact fun hk => absurd rfl hk.2.1
  simp only [h2, if_false]
  generalize e3 : d.eglGetConfigs _ dpy = a3
  obtain ⟨ret3, n3⟩ := a3
  replace e3 := (congrArg Prod.fst e3).symm
  simp only at e3 ⊢
  by_cases h3 : ret3 = 0
  · simp only [h3, if_true]
    generalize d.eglGetError _ = err
    refine ⟨{ Run.ofDriver d with
        display := dpy, major := maj, minor := min, initRet := ret2,
        numConfigs0 := n3, getConfigsRet := 0, err := err }, ?_,
      { hb with display := ⟨_, _, e1.symm⟩, initRet := ⟨_, _, e2⟩,
                getConfigsRet := ⟨_, _, h3 ▸ e3⟩ }, ?_, ?_, ?_⟩
    · constructor <;> simp [Run.ofDriver, liveShaders, livePrograms]
    · simp [Run.trace, h1, h2]
    · simp [Run.result]
    · exact fun hk => absurd rfl hk.2.2.1
  simp only [h3, if_false]
  generalize e4 : d.eglChooseConfig _ dpy attribList 1 = a4
  obtain ⟨ret4, cfg, n4⟩ := a4
  replace e4 := (congrArg Prod.fst e4).symm
  simp only at e4 ⊢
  by_cases h4 : ret4 = 0
  · simp only [h4, if_true]
    generalize d.eglGetError _ = err
    refine ⟨{ Run.ofDriver d with
        display := dpy, major := maj, minor := min, initRet := ret2,
        numConfigs0 := n3, getConfigsRet := ret3, config := cfg, numConfigs := n4,
        chooseRet := 0, err := err }, ?_,
      { hb with display := ⟨_, _, e1.symm⟩, initRet := ⟨_, _, e2⟩,
                getConfigsRet := ⟨_, _, e3⟩, chooseRet := ⟨_, _, _, _, h4 ▸ e4⟩ }, ?_, ?_, ?_⟩
    · constructor <;> simp [Run.ofDriver, liveShaders, livePrograms]
    · simp [Run.trace, h1, h2, h3]
    · simp [Run.result]
    · exact fun hk => absurd rfl hk.2.2.2.1
  simp only [h4, if_false]
  generalize hcd : configDump d _ dpy cfg n4 = wd
  obtain ⟨dump, hd, hq⟩ : ∃ l, wd.trace =
      [.eglGetDisplay EGL_DEFAULT_DISPLAY dpy, .eglInitialize dpy maj min ret2,
        .eglGetConfigs dpy n3 ret3, .eglChooseConfig dpy attribList cfg 1 n4 ret4] ++ l ∧
      ∀ e ∈ l, ∃ a v ret, e = .eglGetConfigAttrib dpy cfg a v ret := by
    rw [← hcd]
    exact configDump_trace d _ dpy cfg n4
  simp only [hd, List.append_assoc, List.singleton_append, List.cons_append, List.nil_append]
  generalize e5 : d.eglCreatePbufferSurface _ dpy cfg pbufferAttribs = surf
  by_cases h5 : surf = EGL_NO_SURFACE
  · simp only [h5, if_true]
    generalize d.eglGetError _ = err
    refine ⟨{ Run.ofDriver d with
        display := dpy, major := maj, minor := min, initRet := ret2,
        numConfigs0 := n3, getConfigsRet := ret3, config := cfg, numConfigs := n4,
        chooseRet := ret4, dump := dump, surface := EGL_NO_SURFACE, err := err }, ?_,
      { hb with display := ⟨_, _, e1.symm⟩, initRet := ⟨_, _, e2⟩,
                getConfigsRet := ⟨_, _, e3⟩, chooseRet := ⟨_, _, _, _, e4⟩,
                surface := ⟨_, _, _, _, (e5.trans h5).symm⟩ }, ?_, ?_, ?_⟩
    · constructor <;> simp [Run.ofDriver, liveShaders, livePrograms]
      exact hq
    · simp [Run.trace, h1, h2, h3, h4]
    · simp [Run.result]
    · exact fun hk => absurd rfl hk.2.2.2.2.1
  simp only [h5, if_false]
  generalize e6 : d.eglCreateContext _ dpy cfg EGL_NO_CONTEXT contextAttribs = ctx
  by_cases h6 : ctx = EGL_NO_CONTEXT
  · simp only [h6, if_true]
    generalize d.eglGetError _ = err
    refine ⟨{ Run.ofDriver d with
        display := dpy, major := maj, minor := min, initRet := ret2,
        numConfigs0 := n3, getConfigsRet := ret3, config := cfg, numConfigs := n4,
        chooseRet := ret4, dump := dump, surface := surf, context := EGL_NO_CONTEXT,
        err := err }, ?_,
      { hb with display := ⟨_, _, e1.symm⟩, initRet := ⟨_, _, e2⟩,
                getConfigsRet := ⟨_, _, e3⟩, chooseRet := ⟨_, _, _, _, e4⟩,
                surface := ⟨_, _, _, _, e5.symm⟩,
                context := ⟨_, _, _, _, _, (e6.trans h6).symm⟩ }, ?_, ?_, ?_⟩
    · constructor <;> simp [Run.ofDriver, liveShaders, livePrograms]
      exact hq
    · simp [Run.trace, h1, h2, h3, h4, h5]
    · simp [Run.result]
    · exact fun hk => absurd rfl hk.2.2.2.2.2.1
  simp only [h6, if_false]
  generalize e7 : d.eglMakeCurrent _ dpy surf surf ctx = ret7
  by_cases h7 : ret7 = 0
  · simp only [h7, if_true]
    generalize d.eglGetError _ = err
    refine ⟨{ Run.ofDriver d with
        display := dpy, major := maj, minor := min, initRet := ret2,
        numConfigs0 := n3, getConfigsRet := ret3, config := cfg, numConfigs := n4,
        chooseRet := ret4, dump := dump, surface := surf, context := ctx, bindRet := 0,
        err := err }, ?_,
      { hb with display := ⟨_, _, e1.symm⟩, initRet := ⟨_, _, e2⟩,
                getConfigsRet := ⟨_, _, e3⟩, chooseRet := ⟨_, _, _, _, e4⟩,
                surface := ⟨_, _, _, _, e5.symm⟩, context := ⟨_, _, _, _, _, e6.symm⟩,
                bindRet := ⟨_, _, _, _, _, (e7.trans h7).symm⟩ }, ?_, ?_, ?_⟩
    · constructor <;> simp [Run.ofDriver, liveShaders, livePrograms]
      exact hq
    · simp [Run.trace, h1, h2, h3, h4, h5, h6]
    · simp [Run.result]
    · exact fun hk => absurd rfl hk.2.2.2.2.2.2
  simp only [h7, if_false]
  have cases_info := eglInfo_run d
    ⟨[.eglGetDisplay EGL_DEFAULT_DISPLAY dpy, .eglInitialize dpy maj min ret2,
        .eglGetConfigs dpy n3 ret3, .eglChooseConfig dpy attribList cfg 1 n4 ret4] ++
      (dump ++ [.eglCreatePbufferSurface dpy cfg pbufferAttribs surf,
        .eglCreateContext dpy cfg EGL_NO_CONTEXT contextAttribs ctx,
        .eglMakeCurrent dpy surf surf ctx ret7]), wd.out⟩ dpy
  simp only [List.append_assoc, List.singleton_append, List.cons_append, List.nil_append]
    at cases_info
  obtain ⟨li, qi, ⟨wi, hei, hi⟩ | ⟨wi, hei, hi, hnull, hfrom⟩⟩ := cases_info
  swap
  · simp only [hei]
    refine ⟨{
        display := dpy, major := maj, minor := min, initRet := ret2,
        numConfigs0 := n3, getConfigsRet := ret3, config := cfg, numConfigs := n4,
        chooseRet := ret4, dump := dump, surface := surf, context := ctx, bindRet := ret7,
        nullExts := true, info := li,
        unbindRet := d.eglMakeCurrent [] 0 0 0 0,
        destroyContextRet := d.eglDestroyContext [] 0 0,
        destroySurfaceRet := d.eglDestroySurface [] 0 0,
        terminateRet := d.eglTerminate [] 0 }, ?_,
      ⟨⟨_, _, e1.symm⟩, ⟨_, _, e2⟩, ⟨_, _, e3⟩, ⟨_, _, _, _, e4⟩, ⟨_, _, _, _, e5.symm⟩,
        ⟨_, _, _, _, _, e6.symm⟩, ⟨_, _, _, _, _, e7.symm⟩, ⟨_, _, _, _, _, rfl⟩,
        ⟨_, _, _, rfl⟩, ⟨_, _, _, rfl⟩, ⟨_, _, rfl⟩, fun _ => hfrom⟩, ?_, ?_, ?_⟩
    · exact ⟨hq, qi, fun _ => hnull, fun _ h => absurd h (List.not_mem_nil _), rfl, rfl⟩
    · rw [hi]
      simp [Run.trace, h1, h2, h3, h4, h5, h6, h7]
    · simp [Run.result, h1, h2, h3, h4, h5, h6, h7]
    · intro _ hn
      exact Bool.noConfusion hn
  simp only [hei]
  obtain ⟨lg, hg, qg⟩ := glesInfo_trace d wi
  obtain ⟨load, prog, bl, ge, hs, qs, ss, ps⟩ := shaderDemo_run d (glesInfo d wi)
  obtain ⟨r8, r9, r10, r11, err, f8, f9, f10, f11, ht, hr⟩ :=
    teardown_run d (shaderDemo d (glesInfo d wi)) dpy surf ctx
  refine ⟨{
      display := dpy, major := maj, minor := min, initRet := ret2,
      numConfigs0 := n3, getConfigsRet := ret3, config := cfg, numConfigs := n4,
      chooseRet := ret4, dump := dump, surface := surf, context := ctx, bindRet := ret7,
      info := li ++ lg, load := load, program := prog, binaryLen := bl, glerr := ge,
      unbindRet := r8, destroyContextRet := r9, destroySurfaceRet := r10, terminateRet := r11,
      err := err }, ?_,
    ⟨⟨_, _, e1.symm⟩, ⟨_, _, e2⟩, ⟨_, _, e3⟩, ⟨_, _, _, _, e4⟩, ⟨_, _, _, _, e5.symm⟩,
      ⟨_, _, _, _, _, e6.symm⟩, ⟨_, _, _, _, _, e7.symm⟩, f8, f9, f10, f11,
      fun h => Bool.noConfusion h⟩, ?_, ?_, ?_⟩
  · refine ⟨hq, ?_, fun h => Bool.noConfusion h, qs, ss [], ?_⟩
    · intro e he
      rcases List.mem_append.1 he with h | h
      · exact qi e h
      · exact qg e h
    · simpa [livePrograms] using ps []
  · rw [ht, hs, hg, hi]
    simp [Run.trace, Run.demo, Run.tear, h1, h2, h3, h4, h5, h6, h7]
  · rw [hr]
    simp [Run.result, h1, h2, h3, h4, h5, h6, h7]
  · exact fun _ _ => ⟨_, rfl⟩

/-! ## Resource accounting along a run -/

theorem foldl_step_id {step : List Nat → Event → List Nat} (l : List Event)
    (h : ∀ e ∈ l, ∀ L, step L e = L) : ∀ L, l.foldl step L = L := by
  induction l with
  | nil => intro L; rfl
  | cons e l ih =>
    intro L
    rw [List.foldl_cons, h e (List.mem_cons_self e l)]
    exact ih (fun x hx => h x (List.mem_cons_of_mem e hx)) L

theorem Run.Valid.fold_dump {r : Run} (hv : r.Valid) (step : List Nat → Event → List Nat)
    (hs : ∀ L dpy cfg a v ret, step L (.eglGetConfigAttrib dpy cfg a v ret) = L) :
    ∀ L, r.dump.foldl step L = L := by
  apply foldl_step_id
  intro e he L
  obtain ⟨a, v, ret, rfl⟩ := hv.dump e he
  exact hs L _ _ _ _ _

theorem Run.Valid.fold_info {r : Run} (hv : r.Valid) (step : List Nat → Event → List Nat)
    (hs : ∀ L e, e.isProbe = true → step L e = L) :
    ∀ L, r.info.foldl step L = L := by
  apply foldl_step_id
  intro e he L
  exact hs L e (hv.info e he).1

theorem Run.Valid.fold_load {r : Run} (hv : r.Valid) (step : List Nat → Event → List Nat)
    (hs : ∀ L e, e.isShaderPipeline = true → step L e = L) :
    ∀ L, r.load.foldl step L = L := by
  apply foldl_step_id
  intro e he L
  exact hs L e (hv.load e he)

theorem shaderStep_probe (L : List Nat) (e : Event) (h : e.isProbe = true) :
    shaderStep L e = L := by
  cases e <;> simp_all [Event.isProbe, shaderStep]

theorem programStep_probe (L : List Nat) (e : Event) (h : e.isProbe = true) :
    programStep L e = L := by
  cases e <;> simp_all [Event.isProbe, programStep]

theorem displayStep_probe (L : List Nat) (e : Event) (h : e.isProbe = true) :
    displayStep L e = L := by
  cases e <;> simp_all [Event.isProbe, displayStep]

theorem surfaceStep_probe (L : List Nat) (e : Event) (h : e.isProbe = true) :
    surfaceStep L e = L := by
  cases e <;> simp_all [Event.isProbe, surfaceStep]

theorem contextStep_probe (L : List Nat) (e : Event) (h : e.isProbe = true) :
    contextStep L e = L := by
  cases e <;> simp_all [Event.isProbe, contextStep]

theorem displayStep_shader (L : List Nat) (e : Event) (h : e.isShaderPipeline = true) :
    displayStep L e = L := by
  cases e <;> simp_all [Event.isShaderPipeline, displayStep]

theorem surfaceStep_shader (L : List Nat) (e : Event) (h : e.isShaderPipeline = true) :
    surfaceStep L e = L := by
  cases e <;> simp_all [Event.isShaderPipeline, surfaceStep]

theorem contextStep_shader (L : List Nat) (e : Event) (h : e.isShaderPipeline = true) :
    contextStep L e = L := by
  cases e <;> simp_all [Event.isShaderPipeline, contextStep]

/-! ## The three shapes of a run -/

/-- A run in which a bootstrap step fails ends right after that step with one
`eglGetError`; before it come the earlier bootstrap steps, all successful and in
order, and, once `eglChooseConfig` has succeeded, the configuration queries. -/
theorem Run.shape_fail {r : Run} (hv : r.Valid) (hnb : ¬ r.Bootstrapped) :
    ∃ pre e k, r.trace = pre ++ [e, .eglGetError r.err] ∧ e.bootStep = some k ∧
      e.failed = true ∧ pre.filterMap Event.bootStep = List.range' 1 (k - 1) ∧
      (∀ x ∈ pre, (x.bootStep.isSome = true ∧ x.failed = false) ∨
        (x.isConfigQuery = true ∧ 4 < k)) ∧
      r.result = .returned EGL_FALSE := by
  have hd : ∀ x ∈ r.dump, x.isConfigQuery = true ∧ x.bootStep = none := by
    intro x hx
    obtain ⟨a, v, ret, rfl⟩ := hv.dump x hx
    exact ⟨rfl, rfl⟩
  have fd : r.dump.filterMap Event.bootStep = [] := by
    rw [List.filterMap_eq_nil_iff]
    exact fun x hx => (hd x hx).2
  by_cases c1 : r.display = EGL_NO_DISPLAY
  · refine ⟨[], .eglGetDisplay EGL_DEFAULT_DISPLAY r.display, 1, ?_, rfl, ?_, rfl, ?_, ?_⟩
    · simp [Run.trace, c1]
    · simp [Event.failed, c1]
    · simp
    · simp [Run.result, c1]
  by_cases c2 : r.initRet = 0
  · refine ⟨[.eglGetDisplay EGL_DEFAULT_DISPLAY r.display],
      .eglInitialize r.display r.major r.minor r.initRet, 2, ?_, rfl, ?_, rfl, ?_, ?_⟩
    · simp [Run.trace, c1, c2]
    · simp [Event.failed, c2]
    · simp [Event.bootStep, Event.failed, c1]
    · simp [Run.result, c2]
  by_cases c3 : r.getConfigsRet = 0
  · refine ⟨[.eglGetDisplay EGL_DEFAULT_DISPLAY r.display,
        .eglInitialize r.display r.major r.minor r.initRet],
      .eglGetConfigs r.display r.numConfigs0 r.getConfigsRet, 3, ?_, rfl, ?_, rfl, ?_, ?_⟩
    · simp [Run.trace, c1, c2, c3]
    · simp [Event.failed, c3]
    · simp [Event.bootStep, Event.failed, c1, c2]
    · simp [Run.result, c3]
  by_cases c4 : r.chooseRet = 0
  · refine ⟨[.eglGetDisplay EGL_DEFAULT_DISPLAY r.display,
        .eglInitialize r.display r.major r.minor r.initRet,
        .eglGetConfigs r.display r.numConfigs0 r.getConfigsRet],
      .eglChooseConfig r.display attribList r.config 1 r.numConfigs r.chooseRet, 4,
      ?_, rfl, ?_, rfl, ?_, ?_⟩
    · simp [Run.trace, c1, c2, c3, c4]
    · simp [Event.failed, c4]
    · simp [Event.bootStep, Event.failed, c1, c2, c3]
    · simp [Run.result, c4]
  by_cases c5 : r.surface = EGL_NO_SURFACE
  · refine ⟨[.eglGetDisplay EGL_DEFAULT_DISPLAY r.display,
        .eglInitialize r.display r.major r.minor r.initRet,
        .eglGetConfigs r.display r.numConfigs0 r.getConfigsRet,
        .eglChooseConfig r.display attribList r.config 1 r.numConfigs r.chooseRet] ++ r.dump,
      .eglCreatePbufferSurface r.display r.config pbufferAttribs r.surface, 5,
      ?_, rfl, ?_, ?_, ?_, ?_⟩
    · simp [Run.trace, c1, c2, c3, c4, c5]
    · simp [Event.failed, c5]
    · simp [List.filterMap_append, fd, Event.bootStep, List.range']
    · intro x hx
      simp only [List.mem_append, List.mem_cons, List.not_mem_nil, or_false] at hx
      rcases hx with (h | h | h | h) | h
      · subst h; left; simp [Event.bootStep, Event.failed, c1]
      · subst h; left; simp [Event.bootStep, Event.failed, c2]
      · subst h; left; simp [Event.bootStep, Event.failed, c3]
      · subst h; left; simp [Event.bootStep, Event.failed, c4]
      · right; exact ⟨(hd x h).1, by decide⟩
    · simp [Run.result, c5]
  by_cases c6 : r.context = EGL_NO_CONTEXT
  · refine ⟨[.eglGetDisplay EGL_DEFAULT_DISPLAY r.display,
        .eglInitialize r.display r.major r.minor r.initRet,
        .eglGetConfigs r.display r.numConfigs0 r.getConfigsRet,
        .eglChooseConfig r.display attribList r.config 1 r.numConfigs r.chooseRet] ++ r.dump ++
        [.eglCreatePbufferSurface r.display r.config pbufferAttribs r.surface],
      .eglCreateContext r.display r.config EGL_NO_CONTEXT contextAttribs r.context, 6,
      ?_, rfl, ?_, ?_, ?_, ?_⟩
    · simp [Run.trace, c1, c2, c3, c4, c5, c6]
    · simp [Event.failed, c6]
    · simp [List.filterMap_append, fd, Event.bootStep, List.range']
    · intro x hx
      simp only [List.mem_append, List.mem_cons, List.not_mem_nil, or_false] at hx
      rcases hx with ((h | h | h | h) | h) | h
      · subst h; left; simp [Event.bootStep, Event.failed, c1]
      · subst h; left; simp [Event.bootStep, Event.failed, c2]
      · subst h; left; simp [Event.bootStep, Event.failed, c3]
      · subst h; left; simp [Event.bootStep, Event.failed, c4]
      · right; exact ⟨(hd x h).1, by decide⟩
      · subst h; left; simp [Event.bootStep, Event.failed, c5]
    · simp [Run.result, c6]
  by_cases c7 : r.bindRet = 0
  · refine ⟨[.eglGetDisplay EGL_DEFAULT_DISPLAY r.display,
        .eglInitialize r.display r.major r.minor r.initRet,
        .eglGetConfigs r.display r.numConfigs0 r.getConfigsRet,
        .eglChooseConfig r.display attribList r.config 1 r.numConfigs r.chooseRet] ++ r.dump ++
        [.eglCreatePbufferSurface r.display r.config pbufferAttribs r.surface,
         .eglCreateContext r.display r.config EGL_NO_CONTEXT contextAttribs r.context],
      .eglMakeCurrent r.display r.surface r.surface r.context r.bindRet, 7,
      ?_, ?_, ?_, ?_, ?_, ?_⟩
    · simp [Run.trace, c1, c2, c3, c4, c5, c6, c7]
    · simp [Event.bootStep, c6]
    · simp [Event.failed, c7]
    · simp [List.filterMap_append, fd, Event.bootStep, List.range']
    · intro x hx
      simp only [List.mem_append, List.mem_cons, List.not_mem_nil, or_false] at hx
      rcases hx with ((h | h | h | h) | h) | h | h
      · subst h; left; simp [Event.bootStep, Event.failed, c1]
      · subst h; left; simp [Event.bootStep, Event.failed, c2]
      · subst h; left; simp [Event.bootStep, Event.failed, c3]
      · subst h; left; simp [Event.bootStep, Event.failed, c4]
      · right; exact ⟨(hd x h).1, by decide⟩
      · subst h; left; simp [Event.bootStep, Event.failed, c5]
      · subst h; left; simp [Event.bootStep, Event.failed, c6]
    · simp [Run.result, c7]
  exact absurd ⟨c1, c2, c3, c4, c5, c6, c7⟩ hnb

/-- A run in which all bootstrap steps succeed and the reply for
`EGL_EXTENSIONS` is `NULL` ends inside the report of the EGL strings, and `main`
does not return. -/
theorem Run.shape_abort {r : Run} (hb : r.Bootstrapped) (hn : r.nullExts = true) :
    r.trace =
      [.eglGetDisplay EGL_DEFAULT_DISPLAY r.display,
        .eglInitialize r.display r.major r.minor r.initRet,
        .eglGetConfigs r.display r.numConfigs0 r.getConfigsRet,
        .eglChooseConfig r.display attribList r.config 1 r.numConfigs r.chooseRet] ++ r.dump ++
      [.eglCreatePbufferSurface r.display r.config pbufferAttribs r.surface,
        .eglCreateContext r.display r.config EGL_NO_CONTEXT contextAttribs r.context,
        .eglMakeCurrent r.display r.surface r.surface r.context r.bindRet] ++
      r.info ∧
    r.result = .aborted := by
  obtain ⟨c1, c2, c3, c4, c5, c6, c7⟩ := hb
  constructor
  · simp [Run.trace, c1, c2, c3, c4, c5, c6, c7, hn]
  · simp [Run.result, c1, c2, c3, c4, c5, c6, c7, hn]

/-- A run in which all bootstrap steps succeed and the reply for
`EGL_EXTENSIONS` is a string goes through the reports, the shader demonstration
and the teardown. -/
theorem Run.shape_boot {r : Run} (hb : r.Bootstrapped) (hn : r.nullExts = false) :
    r.trace =
      [.eglGetDisplay EGL_DEFAULT_DISPLAY r.display,
        .eglInitialize r.display r.major r.minor r.initRet,
        .eglGetConfigs r.display r.numConfigs0 r.getConfigsRet,
        .eglChooseConfig r.display attribList r.config 1 r.numConfigs r.chooseRet] ++ r.dump ++
      [.eglCreatePbufferSurface r.display r.config pbufferAttribs r.surface,
        .eglCreateContext r.display r.config EGL_NO_CONTEXT contextAttribs r.context,
        .eglMakeCurrent r.display r.surface r.surface r.context r.bindRet] ++
      r.info ++ r.demo ++ r.tear ∧
    r.result =
      .returned (tearResult r.unbindRet r.destroyContextRet r.destroySurfaceRet
        r.terminateRet) := by
  obtain ⟨c1, c2, c3, c4, c5, c6, c7⟩ := hb
  constructor
  · simp [Run.trace, c1, c2, c3, c4, c5, c6, c7, hn]
  · simp [Run.result, c1, c2, c3, c4, c5, c6, c7, hn]

theorem shaderStep_boot (L : List Nat) (e : Event) (h : e.bootStep.isSome = true) :
    shaderStep L e = L := by
  cases e <;> simp_all [Event.bootStep, shaderStep]

theorem programStep_boot (L : List Nat) (e : Event) (h : e.bootStep.isSome = true) :
    programStep L e = L := by
  cases e <;> simp_all [Event.bootStep, programStep]

/-- Shader and program objects never outlive a run; the display, the surface and
the context are released on the runs that return `EGL_TRUE`; a run that returns
`EGL_FALSE` never terminates the display. -/
theorem Run.Valid.live {r : Run} (hv : r.Valid) :
    liveShaders r.trace = [] ∧ livePrograms r.trace = [] ∧
    (r.result = .returned EGL_TRUE →
      liveDisplays r.trace = [] ∧ liveSurfaces r.trace = [] ∧ liveContexts r.trace = []) ∧
    (r.result = .returned EGL_FALSE →
      ∀ dpy ret, ret ≠ 0 → Event.eglTerminate dpy ret ∉ r.trace) := by
  by_cases hb : r.Bootstrapped
  · by_cases hn : r.nullExts = true
    · obtain ⟨ht, hr⟩ := Run.shape_abort hb hn
      have d1 := hv.fold_dump shaderStep (fun _ _ _ _ _ _ => rfl)
      have d2 := hv.fold_dump programStep (fun _ _ _ _ _ _ => rfl)
      have i1 := hv.fold_info shaderStep shaderStep_probe
      have i2 := hv.fold_info programStep programStep_probe
      rw [ht, hr]
      refine ⟨?_, ?_, fun h => Exit.noConfusion h, fun h => Exit.noConfusion h⟩
      · simp only [liveShaders, List.foldl_append, List.foldl_cons, List.foldl_nil, shaderStep,
          d1, i1]
      · simp only [livePrograms, List.foldl_append, List.foldl_cons, List.foldl_nil,
          programStep, d2, i2]
    obtain ⟨ht, hr⟩ := Run.shape_boot hb (eq_false_of_ne_true hn)
    obtain ⟨c1, c2, c3, c4, c5, c6, c7⟩ := hb
    have d1 := hv.fold_dump shaderStep (fun _ _ _ _ _ _ => rfl)
    have d2 := hv.fold_dump programStep (fun _ _ _ _ _ _ => rfl)
    have d3 := hv.fold_dump displayStep (fun _ _ _ _ _ _ => rfl)
    have d4 := hv.fold_dump surfaceStep (fun _ _ _ _ _ _ => rfl)
    have d5 := hv.fold_dump contextStep (fun _ _ _ _ _ _ => rfl)
    have i1 := hv.fold_info shaderStep shaderStep_probe
    have i2 := hv.fold_info programStep programStep_probe
    have i3 := hv.fold_info displayStep displayStep_probe
    have i4 := hv.fold_info surfaceStep surfaceStep_probe
    have i5 := hv.fold_info contextStep contextStep_probe
    have l3 := hv.fold_load displayStep displayStep_shader
    have l4 := hv.fold_load surfaceStep surfaceStep_shader
    have l5 := hv.fold_load contextStep contextStep_shader
    have l1 := hv.shaders
    have l2 := hv.programs
    simp only [liveShaders, livePrograms] at l1 l2
    have nd : ∀ dpy ret, Event.eglTerminate dpy ret ∉ r.dump := by
      intro dpy ret h
      obtain ⟨a, v, x, hx⟩ := hv.dump _ h
      cases hx
    have ni : ∀ dpy ret, Event.eglTerminate dpy ret ∉ r.info := by
      intro dpy ret h
      have := (hv.info _ h).1
      simp [Event.isProbe] at this
    have nl : ∀ dpy ret, Event.eglTerminate dpy ret ∉ r.load := by
      intro dpy ret h
      have := hv.load _ h
      simp [Event.isShaderPipeline] at this
    rw [ht, hr]
    refine ⟨?_, ?_, ?_, ?_⟩
    · simp only [liveShaders, Run.demo, Run.tear, demoCalls, tearCalls, List.foldl_append,
        List.foldl_cons, List.foldl_nil, shaderStep, d1, i1, l1]
      split_ifs <;> simp [shaderStep]
    · simp only [livePrograms, Run.demo, Run.tear, demoCalls, tearCalls, List.foldl_append,
        List.foldl_cons, List.foldl_nil, programStep, d2, i2, l2]
      split_ifs <;> simp [programStep]
    · intro h
      simp only [tearResult, EGL_TRUE, EGL_FALSE, Exit.returned.injEq] at h
      split_ifs at h with hc
      simp only [not_or] at hc
      obtain ⟨t1, t2, t3, t4⟩ := hc
      simp only [EGL_NO_SURFACE, EGL_NO_CONTEXT] at c5 c6
      simp [liveDisplays, liveSurfaces, liveContexts, Run.demo, Run.tear, demoCalls,
        tearCalls, List.foldl_append, displayStep, surfaceStep, contextStep, d3, d4, d5,
        i3, i4, i5, l3, l4, l5, c2, c5, c6, t1, t2, t3, t4, EGL_NO_SURFACE, EGL_NO_CONTEXT]
      split_ifs <;> simp [displayStep, surfaceStep, contextStep, l3, l4, l5]
    · intro h dpy ret hret
      simp only [tearResult, EGL_TRUE, EGL_FALSE, Exit.returned.injEq] at h
      split_ifs at h with hc
      simp only [Run.demo, Run.tear, demoCalls, tearCalls, List.mem_append, List.mem_cons,
        List.mem_singleton, List.not_mem_nil, nd, ni, nl, false_or, or_false, not_or]
      rcases hc with hc | hc | hc | hc
      · simp [hc]
      · split_ifs <;> simp_all
      · split_ifs <;> simp_all
      · split_ifs <;> simp_all
  · obtain ⟨pre, e, k, ht, hk, hf, -, hp, hr⟩ := Run.shape_fail hv hb
    have hs : ∀ x ∈ pre ++ [e, Event.eglGetError r.err], ∀ L, shaderStep L x = L := by
      intro x hx L
      simp only [List.mem_append, List.mem_cons, List.mem_singleton, List.not_mem_nil,
        or_false] at hx
      rcases hx with h | h | h
      · rcases hp x h with h' | h'
        · exact shaderStep_boot L x h'.1
        · revert h'
          cases x <;> simp [Event.isConfigQuery, shaderStep]
      · subst h
        exact shaderStep_boot L _ (by simp [hk])
      · subst h
        rfl
    have hg : ∀ x ∈ pre ++ [e, Event.eglGetError r.err], ∀ L, programStep L x = L := by
      intro x hx L
      simp only [List.mem_append, List.mem_cons, List.mem_singleton, List.not_mem_nil,
        or_false] at hx
      rcases hx with h | h | h
      · rcases hp x h with h' | h'
        · exact programStep_boot L x h'.1
        · revert h'
          cases x <;> simp [Event.isConfigQuery, programStep]
      · subst h
        exact programStep_boot L _ (by simp [hk])
      · subst h
        rfl
    rw [ht, hr]
    refine ⟨foldl_step_id _ hs [], foldl_step_id _ hg [], ?_, ?_⟩
    · intro h
      simp [EGL_TRUE, EGL_FALSE] at h
    · intro _ dpy ret hret hm
      simp only [List.mem_append, List.mem_cons, List.mem_singleton, List.not_mem_nil,
        or_false] at hm
      rcases hm with h | h | h
      · rcases hp _ h with h' | h'
        · simp [Event.bootStep] at h'
        · simp [Event.isConfigQuery] at h'
      · subst h
        simp [Event.bootStep] at hk
      · cases h

/-- A run that returns `EGL_TRUE` passed every bootstrap and teardown step. -/
theorem Run.shape_true {r : Run} (hv : r.Valid) (h : r.result = .returned EGL_TRUE) :
    r.Bootstrapped ∧ r.unbindRet ≠ 0 ∧ r.destroyContextRet ≠ 0 ∧ r.destroySurfaceRet ≠ 0 ∧
    r.terminateRet ≠ 0 ∧
    r.trace =
      [.eglGetDisplay EGL_DEFAULT_DISPLAY r.display,
        .eglInitialize r.display r.major r.minor r.initRet,
        .eglGetConfigs r.display r.numConfigs0 r.getConfigsRet,
        .eglChooseConfig r.display attribList r.config 1 r.numConfigs r.chooseRet] ++ r.dump ++
      [.eglCreatePbufferSurface r.display r.config pbufferAttribs r.surface,
        .eglCreateContext r.display r.config EGL_NO_CONTEXT contextAttribs r.context,
        .eglMakeCurrent r.display r.surface r.surface r.context r.bindRet] ++
      r.info ++ r.demo ++
      [.eglMakeCurrent r.display EGL_NO_SURFACE EGL_NO_SURFACE EGL_NO_CONTEXT r.unbindRet,
        .eglDestroyContext r.display r.context r.destroyContextRet,
        .eglDestroySurface r.display r.surface r.destroySurfaceRet,
        .eglTerminate r.display r.terminateRet, .eglGetError r.err] := by
  by_cases hb : r.Bootstrapped
  · by_cases hn : r.nullExts = true
    · rw [(Run.shape_abort hb hn).2] at h
      cases h
    obtain ⟨ht, hr⟩ := Run.shape_boot hb (eq_false_of_ne_true hn)
    rw [hr] at h
    simp only [tearResult, EGL_TRUE, EGL_FALSE, Exit.returned.injEq] at h
    split_ifs at h with hc
    simp only [not_or] at hc
    obtain ⟨t1, t2, t3, t4⟩ := hc
    refine ⟨hb, t1, t2, t3, t4, ?_⟩
    rw [ht]
    simp [Run.tear, tearCalls, t1, t2, t3]
  · obtain ⟨pre, e, k, -, -, -, -, -, hr⟩ := Run.shape_fail hv hb
    rw [hr] at h
    simp [EGL_TRUE, EGL_FALSE] at h

theorem Run.From.bootstrapped {d : Driver} {r : Run} (hf : r.From d) (hd : d.EglSucceeds) :
    r.result = .returned EGL_TRUE := by
  have g0 : r.nullExts = false := by
    apply eq_false_of_ne_true
    intro hn
    obtain ⟨h, x, e⟩ := hf.nullExts hn
    exact hd.eglQueryString h x _ e
  obtain ⟨h1, x1, e1⟩ := hf.display
  obtain ⟨h2, x2, e2⟩ := hf.initRet
  obtain ⟨h3, x3, e3⟩ := hf.getConfigsRet
  obtain ⟨h4, x4, a4, n4, e4⟩ := hf.chooseRet
  obtain ⟨h5, x5, c5, a5, e5⟩ := hf.surface
  obtain ⟨h6, x6, c6, s6, a6, e6⟩ := hf.context
  obtain ⟨h7, x7, s7, t7, c7, e7⟩ := hf.bindRet
  obtain ⟨h8, x8, s8, t8, c8, e8⟩ := hf.unbindRet
  obtain ⟨h9, x9, c9, e9⟩ := hf.destroyContextRet
  obtain ⟨h10, x10, s10, e10⟩ := hf.destroySurfaceRet
  obtain ⟨h11, x11, e11⟩ := hf.terminateRet
  have g1 := hd.eglGetDisplay h1 x1
  have g2 := hd.eglInitialize h2 x2
  have g3 := hd.eglGetConfigs h3 x3
  have g4 := hd.eglChooseConfig h4 x4 a4 n4
  have g5 := hd.eglCreatePbufferSurface h5 x5 c5 a5
  have g6 := hd.eglCreateContext h6 x6 c6 s6 a6
  have g7 := hd.eglMakeCurrent h7 x7 s7 t7 c7
  have g8 := hd.eglMakeCurrent h8 x8 s8 t8 c8
  have g9 := hd.eglDestroyContext h9 x9 c9
  have g10 := hd.eglDestroySurface h10 x10 s10
  have g11 := hd.eglTerminate h11 x11
  rw [← e1] at g1
  rw [← e2] at g2
  rw [← e3] at g3
  rw [← e4] at g4
  rw [← e5] at g5
  rw [← e6] at g6
  rw [← e7] at g7
  rw [← e8] at g8
  rw [← e9] at g9
  rw [← e10] at g10
  rw [← e11] at g11
  simp [Run.result, tearResult, g0, g1, g2, g3, g4, g5, g6, g7, g8, g9, g10, g11]

/-- Every EGL call succeeds on `okDriver`. -/
theorem okDriver_eglSucceeds : okDriver.EglSucceeds :=
  ⟨fun _ _ => Nat.succ_ne_zero 0, fun _ _ => Nat.succ_ne_zero 0, fun _ _ => Nat.succ_ne_zero 0,
    fun _ _ _ _ => Nat.succ_ne_zero 0, fun _ _ _ _ => Nat.succ_ne_zero 1,
    fun _ _ _ _ _ => Nat.succ_ne_zero 2, fun _ _ _ _ _ => Nat.succ_ne_zero 0,
    fun _ _ _ => Nat.succ_ne_zero 0, fun _ _ _ => Nat.succ_ne_zero 0,
    fun _ _ => Nat.succ_ne_zero 0, fun _ _ _ h => Option.noConfusion h⟩

/-- The configuration queries, the reports and the shader demonstration hold no
bootstrap or teardown call. -/
theorem Run.Valid.noise {r : Run} (hv : r.Valid) :
    (∀ e ∈ r.dump, e.bootStep = none ∧ e.teardownStep = none) ∧
    (∀ e ∈ r.info, e.bootStep = none ∧ e.teardownStep = none) ∧
    (∀ e ∈ r.demo, e.bootStep = none ∧ e.teardownStep = none) := by
  refine ⟨?_, ?_, ?_⟩
  · intro e he
    obtain ⟨a, v, ret, rfl⟩ := hv.dump e he
    exact ⟨rfl, rfl⟩
  · intro e he
    have := (hv.info e he).1
    revert this
    cases e <;> simp [Event.isProbe, Event.bootStep, Event.teardownStep]
  · intro e he
    simp only [Run.demo, demoCalls, List.mem_append, List.mem_singleton] at he
    rcases he with (h | h) | h
    · have := hv.load e h
      revert this
      cases e <;> simp [Event.isShaderPipeline, Event.bootStep, Event.teardownStep]
    · split_ifs at h
      · simp only [List.mem_cons, List.mem_singleton, List.not_mem_nil, or_false] at h
        rcases h with h | h <;> subst h <;> exact ⟨rfl, rfl⟩
      · cases h
    · subst h
      exact ⟨rfl, rfl⟩

/-- In a run whose bootstrap succeeded no bootstrap call failed. -/
theorem Run.boot_succeeded {r : Run} (hv : r.Valid) (hb : r.Bootstrapped) :
    ∀ e ∈ r.trace, e.bootStep.isSome = true → e.failed = false := by
  obtain ⟨n1, n2, n3⟩ := hv.noise
  by_cases hn : r.nullExts = true
  · obtain ⟨ht, -⟩ := Run.shape_abort hb hn
    obtain ⟨c1, c2, c3, c4, c5, c6, c7⟩ := hb
    intro e he hs
    rw [ht] at he
    simp only [List.mem_append, List.mem_cons, List.mem_singleton, List.not_mem_nil,
      or_false] at he
    rcases he with (((h | h | h | h) | h) | h | h | h) | h
    · subst h; simpa [Event.failed] using c1
    · subst h; simpa [Event.failed] using c2
    · subst h; simpa [Event.failed] using c3
    · subst h; simpa [Event.failed] using c4
    · simp [(n1 e h).1] at hs
    · subst h; simpa [Event.failed] using c5
    · subst h; simpa [Event.failed] using c6
    · subst h; simpa [Event.failed] using c7
    · simp [(n2 e h).1] at hs
  obtain ⟨ht, -⟩ := Run.shape_boot hb (eq_false_of_ne_true hn)
  obtain ⟨c1, c2, c3, c4, c5, c6, c7⟩ := hb
  intro e he hs
  rw [ht] at he
  simp only [List.mem_append, List.mem_cons, List.mem_singleton, List.not_mem_nil,
    or_false] at he
  rcases he with (((((h | h | h | h) | h) | h | h | h) | h) | h) | h
  · subst h; simpa [Event.failed] using c1
  · subst h; simpa [Event.failed] using c2
  · subst h; simpa [Event.failed] using c3
  · subst h; simpa [Event.failed] using c4
  · simp [(n1 e h).1] at hs
  · subst h; simpa [Event.failed] using c5
  · subst h; simpa [Event.failed] using c6
  · subst h; simpa [Event.failed] using c7
  · simp [(n2 e h).1] at hs
  · simp [(n3 e h).1] at hs
  · have nt : ∀ x ∈ r.tear, x.bootStep = none := by
      simp only [Run.tear, tearCalls]
      split_ifs <;> simp [Event.bootStep, EGL_NO_CONTEXT]
    simp [nt e h] at hs

/-- Bootstrap steps are numbered 1 to 7. -/
theorem Event.bootStep_le {e : Event} {k : Nat} (h : e.bootStep = some k) : 1 ≤ k ∧ k ≤ 7 := by
  cases e <;> simp [Event.bootStep] at h <;> omega

theorem filterMap_eq_nil_of {α β : Type} (f : α → Option β) (l : List α)
    (h : ∀ x ∈ l, f x = none) : l.filterMap f = [] :=
  List.filterMap_eq_nil_iff.2 h

/-- The shader demonstration with a null program: after the calls of
`loadProgram` only `glGetError` is called. -/
theorem shaderDemo_null (d : Driver) (w : World)
    (h : (loadProgram d w vshSrc fshSrc).2 = 0) :
    ∃ g, newCalls w (shaderDemo d w) =
      newCalls w (loadProgram d w vshSrc fshSrc).1 ++ [.glGetError g] := by
  obtain ⟨l, t, -⟩ := loadProgram_run d w vshSrc fshSrc
  rcases hl : loadProgram d w vshSrc fshSrc with ⟨w1, prog⟩
  rw [hl] at t h
  dsimp only at t h
  subst h
  unfold shaderDemo
  simp only [hl, ne_eq, not_true_eq_false, if_false, World.emit, World.print]
  refine ⟨d.glGetError w1.trace, ?_⟩
  split_ifs <;> simp [newCalls, t]

/-! ## Claims about `main` -/

/-- C7 (as amended): for every driver, when `main` returns every shader object
and every program object created during the run has been deleted; when `main`
returns `EGL_TRUE`, the initialized display has been terminated, the created
surface destroyed and the created context destroyed; when `main` returns
`EGL_FALSE`, it has not terminated the display (a failure exit returns at once). -/
theorem main_releases_resources (d : Driver) :
    liveShaders (main d).1.trace = [] ∧ livePrograms (main d).1.trace = [] ∧
    ((main d).2 = .returned EGL_TRUE →
      liveDisplays (main d).1.trace = [] ∧ liveSurfaces (main d).1.trace = [] ∧
        liveContexts (main d).1.trace = []) ∧
    ((main d).2 = .returned EGL_FALSE →
      ∀ dpy ret, ret ≠ 0 → Event.eglTerminate dpy ret ∉ (main d).1.trace) := by
  obtain ⟨r, hv, -, ht, hr, -⟩ := main_run d
  rw [ht, hr]
  exact hv.live

/-- C7 at a concrete input: on `okDriver` the run returns `EGL_TRUE` and leaves no
display, surface or context. -/
theorem main_releases_resources_witness :
    liveDisplays (main okDriver).1.trace = [] ∧ liveSurfaces (main okDriver).1.trace = [] ∧
      liveContexts (main okDriver).1.trace = [] :=
  (main_releases_resources okDriver).2.2.1 (by decide)

/-- C7 fails as stated: on a driver whose `eglGetConfigs` fails, `main` returns
`EGL_FALSE` after `eglInitialize` succeeded on display 1 and never calls
`eglTerminate`, so the initialized display is still live when it returns. -/
theorem main_leaks_display_on_failure :
    (main getConfigsFailDriver).2 = .returned EGL_FALSE ∧
    (main getConfigsFailDriver).1.trace =
      [.eglGetDisplay EGL_DEFAULT_DISPLAY 1, .eglInitialize 1 1 5 EGL_TRUE,
       .eglGetConfigs 1 0 EGL_FALSE, .eglGetError EGL_SUCCESS] ∧
    liveDisplays (main getConfigsFailDriver).1.trace = [1] := by
  decide

/-- C5: on a driver on which every EGL call succeeds, `main` returns `EGL_TRUE`
and its session calls are, in this order and each exactly once: `eglInitialize`,
`eglChooseConfig`, `eglCreatePbufferSurface`, `eglCreateContext`,
`eglMakeCurrent(display, surface, surface, context)`,
`eglMakeCurrent(display, EGL_NO_SURFACE, EGL_NO_SURFACE, EGL_NO_CONTEXT)`,
`eglDestroyContext`, `eglDestroySurface`, `eglTerminate`, all on the same display,
surface and context and all successful. -/
theorem main_success_sequence (d : Driver) (hd : d.EglSucceeds) :
    (main d).2 = .returned EGL_TRUE ∧
    ∃ dpy maj min r2 cfg n r4 surf ctx r7 r8 r9 r10 r11,
      (main d).1.trace.filter Event.isSessionCall =
        [.eglInitialize dpy maj min r2,
         .eglChooseConfig dpy attribList cfg 1 n r4,
         .eglCreatePbufferSurface dpy cfg pbufferAttribs surf,
         .eglCreateContext dpy cfg EGL_NO_CONTEXT contextAttribs ctx,
         .eglMakeCurrent dpy surf surf ctx r7,
         .eglMakeCurrent dpy EGL_NO_SURFACE EGL_NO_SURFACE EGL_NO_CONTEXT r8,
         .eglDestroyContext dpy ctx r9,
         .eglDestroySurface dpy surf r10,
         .eglTerminate dpy r11] ∧
      dpy ≠ EGL_NO_DISPLAY ∧ surf ≠ EGL_NO_SURFACE ∧ ctx ≠ EGL_NO_CONTEXT ∧
      r2 ≠ 0 ∧ r4 ≠ 0 ∧ r7 ≠ 0 ∧ r8 ≠ 0 ∧ r9 ≠ 0 ∧ r10 ≠ 0 ∧ r11 ≠ 0 := by
  obtain ⟨r, hv, hf, ht, hr, -⟩ := main_run d
  have htrue := hf.bootstrapped hd
  obtain ⟨⟨c1, c2, c3, c4, c5, c6, c7⟩, t1, t2, t3, t4, hs⟩ := Run.shape_true hv htrue
  refine ⟨hr.trans htrue, r.display, r.major, r.minor, r.initRet, r.config, r.numConfigs,
    r.chooseRet, r.surface, r.context, r.bindRet, r.unbindRet, r.destroyContextRet,
    r.destroySurfaceRet, r.terminateRet, ?_, c1, c5, c6, c2, c4, c7, t1, t2, t3, t4⟩
  have fd : r.dump.filter Event.isSessionCall = [] := by
    rw [List.filter_eq_nil_iff]
    intro x hx
    obtain ⟨a, v, ret, rfl⟩ := hv.dump x hx
    simp [Event.isSessionCall]
  have fi : r.info.filter Event.isSessionCall = [] := by
    rw [List.filter_eq_nil_iff]
    intro x hx
    have := (hv.info x hx).1
    revert this
    cases x <;> simp [Event.isProbe, Event.isSessionCall]
  have fl : r.load.filter Event.isSessionCall = [] := by
    rw [List.filter_eq_nil_iff]
    intro x hx
    have := hv.load x hx
    revert this
    cases x <;> simp [Event.isShaderPipeline, Event.isSessionCall]
  rw [ht, hs]
  simp only [List.filter_append, fd, fi, fl, Run.demo, demoCalls]
  split_ifs <;> simp [Event.isSessionCall, List.filter_cons]

/-- C5 at a concrete input: the driver `okDriver`. -/
theorem main_success_sequence_witness :
    okDriver.EglSucceeds ∧ (main okDriver).2 = .returned EGL_TRUE :=
  ⟨okDriver_eglSucceeds, (main_success_sequence okDriver okDriver_eglSucceeds).1⟩

/-- C4 (as amended): if a bootstrap call fails, `main` returns `EGL_FALSE` and its
trace is `pre ++ [e, eglGetError]` where `e` is the failing call, of step `k`:
the only call after the failing step is `eglGetError`.  Before it, `pre` holds
steps `1 .. k-1` once each in order, all successful, and otherwise only
`eglGetConfigAttrib` queries, which occur only when `k` is past `eglChooseConfig`.
So the run has no later bootstrap step, no shader-pipeline call, no teardown
call, and no probing call other than those configuration queries. -/
theorem main_bootstrap_failure_stops (d : Driver)
    (h : ∃ e ∈ (main d).1.trace, e.bootStep.isSome = true ∧ e.failed = true) :
    (main d).2 = .returned EGL_FALSE ∧
    ∃ pre e k err, (main d).1.trace = pre ++ [e, .eglGetError err] ∧
      e.bootStep = some k ∧ e.failed = true ∧
      pre.filterMap Event.bootStep = List.range' 1 (k - 1) ∧
      (∀ x ∈ pre, (x.bootStep.isSome = true ∧ x.failed = false) ∨
        (x.isConfigQuery = true ∧ 4 < k)) ∧
      (∀ x ∈ (main d).1.trace, x.isShaderPipeline = false ∧ x.isTeardown = false ∧
        (x.isProbe = true → x.isConfigQuery = true ∧ 4 < k)) := by
  obtain ⟨r, hv, -, ht, hr, -⟩ := main_run d
  rw [ht] at h ⊢
  rw [hr]
  by_cases hb : r.Bootstrapped
  · obtain ⟨e, he, hs, hf⟩ := h
    have := Run.boot_succeeded hv hb e he hs
    rw [hf] at this
    cases this
  · obtain ⟨pre, e, k, hp, hk, hf, hm, hq, hres⟩ := Run.shape_fail hv hb
    refine ⟨hres, pre, e, k, r.err, hp, hk, hf, hm, hq, ?_⟩
    intro x hx
    rw [hp] at hx
    simp only [List.mem_append, List.mem_cons, List.mem_singleton, List.not_mem_nil,
      or_false] at hx
    rcases hx with hx | hx | hx
    · rcases hq x hx with ⟨h1, -⟩ | ⟨h1, h2⟩
      · revert h1
        cases x <;> simp [Event.bootStep, Event.isShaderPipeline, Event.isTeardown,
          Event.teardownStep, Event.isProbe]
      · revert h1
        cases x <;> simp [Event.isConfigQuery, Event.isShaderPipeline, Event.isTeardown,
          Event.teardownStep, Event.isProbe]
        exact h2
    · subst hx
      revert hk
      cases x <;> simp [Event.bootStep, Event.isShaderPipeline, Event.isTeardown,
          Event.teardownStep, Event.isProbe]
      intro h1 _ h2
      exact absurd h2 h1
    · subst hx
      simp [Event.isShaderPipeline, Event.isTeardown, Event.teardownStep, Event.isProbe]

/-- C4 at a concrete input: a driver whose `eglCreatePbufferSurface` fails. -/
theorem main_bootstrap_failure_stops_witness :
    (main noSurfaceDriver).2 = .returned EGL_FALSE :=
  (main_bootstrap_failure_stops noSurfaceDriver
    ⟨.eglCreatePbufferSurface 1 1 pbufferAttribs EGL_NO_SURFACE, by decide, by decide⟩).1

/-- C4 fails as stated: on a driver whose `eglCreatePbufferSurface` fails after
the first four steps succeeded, the run of `main` holds eleven probing calls
(`eglGetConfigAttrib`), made between `eglChooseConfig` and the failing step. -/
theorem main_probes_before_surface_failure :
    (main noSurfaceDriver).1.trace =
      [.eglGetDisplay EGL_DEFAULT_DISPLAY 1, .eglInitialize 1 1 5 EGL_TRUE,
       .eglGetConfigs 1 1 EGL_TRUE, .eglChooseConfig 1 attribList 1 1 1 EGL_TRUE,
       .eglGetConfigAttrib 1 1 EGL_BIND_TO_TEXTURE_RGB 0 EGL_TRUE,
       .eglGetConfigAttrib 1 1 EGL_BIND_TO_TEXTURE_RGBA 0 EGL_TRUE,
       .eglGetConfigAttrib 1 1 EGL_CONFORMANT 0 EGL_TRUE,
       .eglGetConfigAttrib 1 1 EGL_MAX_PBUFFER_WIDTH 0 EGL_TRUE,
       .eglGetConfigAttrib 1 1 EGL_MAX_PBUFFER_HEIGHT 0 EGL_TRUE,
       .eglGetConfigAttrib 1 1 EGL_MAX_PBUFFER_PIXELS 0 EGL_TRUE,
       .eglGetConfigAttrib 1 1 EGL_NATIVE_RENDERABLE 0 EGL_TRUE,
       .eglGetConfigAttrib 1 1 EGL_NATIVE_VISUAL_ID 0 EGL_TRUE,
       .eglGetConfigAttrib 1 1 EGL_NATIVE_VISUAL_TYPE 0 EGL_TRUE,
       .eglGetConfigAttrib 1 1 EGL_RENDERABLE_TYPE 0 EGL_TRUE,
       .eglGetConfigAttrib 1 1 EGL_SURFACE_TYPE 0 EGL_TRUE,
       .eglCreatePbufferSurface 1 1 pbufferAttribs EGL_NO_SURFACE,
       .eglGetError EGL_SUCCESS] ∧
    ((main noSurfaceDriver).1.trace.filter Event.isProbe).length = 11 := by
  decide

/-- C6 (as amended): when the `eglChooseConfig` call returns `EGL_FALSE`, `main`
returns `EGL_FALSE` and calls neither `eglCreatePbufferSurface` nor
`eglCreateContext`.  (The number of configurations reported is printed, not
tested.) -/
theorem main_chooseConfig_failure_stops (d : Driver)
    (h : ∃ dpy al cfg sz n, Event.eglChooseConfig dpy al cfg sz n EGL_FALSE ∈ (main d).1.trace) :
    (main d).2 = .returned EGL_FALSE ∧
    (∀ dpy cfg al ret, Event.eglCreatePbufferSurface dpy cfg al ret ∉ (main d).1.trace) ∧
    (∀ dpy cfg sh al ret, Event.eglCreateContext dpy cfg sh al ret ∉ (main d).1.trace) := by
  obtain ⟨r, hv, -, ht, hr, -⟩ := main_run d
  rw [ht] at h ⊢
  rw [hr]
  obtain ⟨dpy, al, cfg, sz, n, hc⟩ := h
  by_cases hb : r.Bootstrapped
  · have := Run.boot_succeeded hv hb _ hc rfl
    simp [Event.failed, EGL_FALSE] at this
  · obtain ⟨pre, e, k, hp, hk, hf, hm, hq, hres⟩ := Run.shape_fail hv hb
    have hk4 : k = 4 := by
      rw [hp] at hc
      simp only [List.mem_append, List.mem_cons, List.mem_singleton, List.not_mem_nil,
        or_false] at hc
      rcases hc with hc | hc | hc
      · rcases hq _ hc with ⟨-, h2⟩ | ⟨h1, -⟩
        · simp [Event.failed, EGL_FALSE] at h2
        · simp [Event.isConfigQuery] at h1
      · subst hc
        simpa [Event.bootStep] using hk.symm
      · cases hc
    subst hk4
    have none_later : ∀ x ∈ r.trace, x.bootStep ≠ some 5 ∧ x.bootStep ≠ some 6 := by
      intro x hx
      rw [hp] at hx
      simp only [List.mem_append, List.mem_cons, List.mem_singleton, List.not_mem_nil,
        or_false] at hx
      rcases hx with hx | hx | hx
      · have hin : ∀ j, x.bootStep = some j → j ∈ List.range' 1 (4 - 1) := by
          intro j hj
          rw [← hm]
          exact List.mem_filterMap.2 ⟨x, hx, hj⟩
        constructor
        · intro h5
          have := hin 5 h5
          simp [List.range'] at this
        · intro h6
          have := hin 6 h6
          simp [List.range'] at this
      · subst hx
        rw [hk]
        simp
      · subst hx
        simp [Event.bootStep]
    refine ⟨hres, ?_, ?_⟩
    · intro a b c e' hmem
      exact (none_later _ hmem).1 rfl
    · intro a b c e' f hmem
      exact (none_later _ hmem).2 rfl

/-- C6 at a concrete input: a driver whose `eglChooseConfig` returns `EGL_FALSE`. -/
theorem main_chooseConfig_failure_stops_witness :
    (main chooseFailDriver).2 = .returned EGL_FALSE :=
  (main_chooseConfig_failure_stops chooseFailDriver
    ⟨1, attribList, 0, 1, 0, by decide⟩).1

/-- C6 fails as stated: on a driver whose `eglChooseConfig` returns `EGL_TRUE` and
reports zero matching configurations, `main` returns `EGL_TRUE` after creating a
surface and a context. -/
theorem main_continues_without_matching_config :
    (∀ h dpy al sz, (noMatchDriver.eglChooseConfig h dpy al sz).2.2 = 0) ∧
    (main noMatchDriver).2 = .returned EGL_TRUE ∧
    (∃ dpy cfg surf, surf ≠ EGL_NO_SURFACE ∧
      Event.eglCreatePbufferSurface dpy cfg pbufferAttribs surf ∈ (main noMatchDriver).1.trace) ∧
    (∃ dpy cfg ctx, ctx ≠ EGL_NO_CONTEXT ∧
      Event.eglCreateContext dpy cfg EGL_NO_CONTEXT contextAttribs ctx ∈
        (main noMatchDriver).1.trace) := by
  have htrue : (main noMatchDriver).2 = .returned EGL_TRUE := by decide
  obtain ⟨r, hv, -, ht, hr, -⟩ := main_run noMatchDriver
  obtain ⟨⟨-, -, -, -, c5, c6, -⟩, -, -, -, -, hs⟩ := Run.shape_true hv (hr ▸ htrue)
  refine ⟨fun _ _ _ _ => rfl, htrue, ⟨r.display, r.config, r.surface, c5, ?_⟩,
    ⟨r.display, r.config, r.context, c6, ?_⟩⟩
  · rw [ht, hs]
    simp
  · rw [ht, hs]
    simp

/-- C8 (as amended): whenever `main` returns, it returns `EGL_TRUE` or
`EGL_FALSE`, and it returns `EGL_TRUE` exactly when all seven bootstrap steps and
all four teardown steps were made, once each and in order, and none of them
failed.  `main` returns whenever the run holds no `NULL` reply for
`EGL_EXTENSIONS`, and then it returns `EGL_TRUE` exactly when no bootstrap or
teardown call of the run failed, and `EGL_FALSE` otherwise.  The outcome of
`loadProgram` plays no part: once the binding `eglMakeCurrent` has succeeded, on
such a run the rest of `main` is the shader demonstration followed by the
teardown, the shader demonstration with a null program makes no call between the
calls of `loadProgram` and `glGetError`, and the teardown always starts with the
unbinding `eglMakeCurrent`. -/
theorem main_result (d : Driver) :
    (∀ code, (main d).2 = .returned code → code = EGL_TRUE ∨ code = EGL_FALSE) ∧
    ((main d).2 = .returned EGL_TRUE ↔
      (main d).1.trace.filterMap Event.bootStep = [1, 2, 3, 4, 5, 6, 7] ∧
      (main d).1.trace.filterMap Event.teardownStep = [1, 2, 3, 4] ∧
      ∀ e ∈ (main d).1.trace, e.isLifecycle = true → e.failed = false) ∧
    ((∀ dpy, Event.eglQueryString dpy EGL_EXTENSIONS none ∉ (main d).1.trace) →
      ((main d).2 = .returned EGL_TRUE ∨ (main d).2 = .returned EGL_FALSE) ∧
      ((main d).2 = .returned EGL_TRUE ↔
        ∀ e ∈ (main d).1.trace, e.isLifecycle = true → e.failed = false)) ∧
    ((∃ e ∈ (main d).1.trace, e.bootStep = some 7 ∧ e.failed = false) →
      (∀ dpy, Event.eglQueryString dpy EGL_EXTENSIONS none ∉ (main d).1.trace) →
      ∃ w dpy surf ctx, main d = teardown d (shaderDemo d w) dpy surf ctx) ∧
    (∀ w, (loadProgram d w vshSrc fshSrc).2 = 0 →
      ∃ g, newCalls w (shaderDemo d w) =
        newCalls w (loadProgram d w vshSrc fshSrc).1 ++ [.glGetError g]) ∧
    (∀ w dpy surf ctx, ∃ ret rest, newCalls w (teardown d w dpy surf ctx).1 =
      .eglMakeCurrent dpy EGL_NO_SURFACE EGL_NO_SURFACE EGL_NO_CONTEXT ret :: rest) := by
  obtain ⟨r, hv, -, ht, hr, hw⟩ := main_run d
  obtain ⟨n1, n2, n3⟩ := hv.noise
  have f1 := filterMap_eq_nil_of _ _ (fun x hx => (n1 x hx).1)
  have f2 := filterMap_eq_nil_of _ _ (fun x hx => (n2 x hx).1)
  have f3 := filterMap_eq_nil_of _ _ (fun x hx => (n3 x hx).1)
  have g1 := filterMap_eq_nil_of _ _ (fun x hx => (n1 x hx).2)
  have g2 := filterMap_eq_nil_of _ _ (fun x hx => (n2 x hx).2)
  have g3 := filterMap_eq_nil_of _ _ (fun x hx => (n3 x hx).2)
  have nl : ∀ x : Event, x.bootStep = none ∧ x.teardownStep = none →
      x.isLifecycle = false := by
    intro x hx
    simp [Event.isLifecycle, Event.isTeardown, hx.1, hx.2]
  have codes : ∀ code, r.result = .returned code → code = EGL_TRUE ∨ code = EGL_FALSE := by
    intro code h
    unfold Run.result at h
    split_ifs at h
    · cases h
      exact Or.inr rfl
    · cases h
      unfold tearResult
      split_ifs
      · exact Or.inr rfl
      · exact Or.inl rfl
  have fwd : r.result = .returned EGL_TRUE →
      r.trace.filterMap Event.bootStep = [1, 2, 3, 4, 5, 6, 7] ∧
      r.trace.filterMap Event.teardownStep = [1, 2, 3, 4] ∧
      ∀ e ∈ r.trace, e.isLifecycle = true → e.failed = false := by
    intro htrue
    obtain ⟨⟨c1, c2, c3, c4, c5, c6, c7⟩, t1, t2, t3, t4, hs⟩ := Run.shape_true hv htrue
    rw [hs]
    refine ⟨?_, ?_, ?_⟩
    · simp only [EGL_NO_CONTEXT] at c6
      simp [List.filterMap_append, f1, f2, f3, Event.bootStep, c6, EGL_NO_CONTEXT]
    · simp only [EGL_NO_CONTEXT] at c6
      simp [List.filterMap_append, g1, g2, g3, Event.teardownStep, c6, EGL_NO_CONTEXT]
    · intro e he hl
      simp only [List.mem_append, List.mem_cons, List.mem_singleton, List.not_mem_nil,
        or_false] at he
      rcases he with (((((h | h | h | h) | h) | h | h | h) | h) | h) | h | h | h | h | h
      · subst h; simpa [Event.failed] using c1
      · subst h; simpa [Event.failed] using c2
      · subst h; simpa [Event.failed] using c3
      · subst h; simpa [Event.failed] using c4
      · rw [nl e (n1 e h)] at hl; cases hl
      · subst h; simpa [Event.failed] using c5
      · subst h; simpa [Event.failed] using c6
      · subst h; simpa [Event.failed] using c7
      · rw [nl e (n2 e h)] at hl; cases hl
      · rw [nl e (n3 e h)] at hl; cases hl
      · subst h; simpa [Event.failed] using t1
      · subst h; simpa [Event.failed] using t2
      · subst h; simpa [Event.failed] using t3
      · subst h; simpa [Event.failed] using t4
      · subst h; rfl
  have bwd : (r.Bootstrapped → r.nullExts = false) →
      (∀ e ∈ r.trace, e.isLifecycle = true → e.failed = false) →
      r.result = .returned EGL_TRUE := by
    intro hnn hall
    by_cases hb : r.Bootstrapped
    · obtain ⟨hs, hres⟩ := Run.shape_boot hb (hnn hb)
      rw [hres]
      by_cases hc : r.unbindRet = 0 ∨ r.destroyContextRet = 0 ∨ r.destroySurfaceRet = 0 ∨
          r.terminateRet = 0
      · exfalso
        have key : ∃ e ∈ r.tear, e.isLifecycle = true ∧ e.failed = true := by
          simp only [Run.tear, tearCalls]
          by_cases t1 : r.unbindRet = 0
          · simp [t1, Event.isLifecycle, Event.isTeardown, Event.teardownStep, Event.failed]
          by_cases t2 : r.destroyContextRet = 0
          · simp [t1, t2, Event.isLifecycle, Event.isTeardown, Event.teardownStep,
              Event.failed, Event.bootStep]
          by_cases t3 : r.destroySurfaceRet = 0
          · simp [t1, t2, t3, Event.isLifecycle, Event.isTeardown, Event.teardownStep,
              Event.failed, Event.bootStep]
          have t4 : r.terminateRet = 0 := by
            rcases hc with hc | hc | hc | hc
            · exact absurd hc t1
            · exact absurd hc t2
            · exact absurd hc t3
            · exact hc
          simp [t1, t2, t3, t4, Event.isLifecycle, Event.isTeardown, Event.teardownStep,
            Event.failed, Event.bootStep]
        obtain ⟨e, he, hl, hf⟩ := key
        have := hall e (by rw [hs]; exact List.mem_append_right _ he) hl
        rw [hf] at this
        cases this
      · simp only [tearResult, if_neg hc]
    · exfalso
      obtain ⟨pre, e, k, hp, hk, hf, -, -, -⟩ := Run.shape_fail hv hb
      have := hall e (by rw [hp]; simp) (by simp [Event.isLifecycle, hk])
      rw [hf] at this
      cases this
  have hnull : (∀ dpy, Event.eglQueryString dpy EGL_EXTENSIONS none ∉ r.trace) →
      r.Bootstrapped → r.nullExts = false := by
    intro hno hb
    apply eq_false_of_ne_true
    intro hn
    apply hno r.display
    rw [(Run.shape_abort hb hn).1]
    exact List.mem_append_right _ (hv.nullExts hn)
  rw [hr, ht]
  refine ⟨codes, ⟨fwd, ?_⟩, ?_, ?_, shaderDemo_null d, ?_⟩
  · rintro ⟨-, h2, hall⟩
    refine bwd ?_ hall
    intro hb
    apply eq_false_of_ne_true
    intro hn
    have c6 := hb.2.2.2.2.2.1
    rw [(Run.shape_abort hb hn).1] at h2
    simp only [EGL_NO_CONTEXT] at c6
    simp [List.filterMap_append, g1, g2, Event.teardownStep, c6, EGL_NO_CONTEXT] at h2
  · intro hno
    refine ⟨?_, fun h => (fwd h).2.2, bwd (hnull hno)⟩
    by_cases hb : r.Bootstrapped
    · rw [(Run.shape_boot hb (hnull hno hb)).2]
      unfold tearResult
      split_ifs
      · exact Or.inr rfl
      · exact Or.inl rfl
    · obtain ⟨pre, e, k, -, -, -, -, -, hres⟩ := Run.shape_fail hv hb
      exact Or.inr hres
  · rintro ⟨e, he, h7, hf⟩ hno
    by_cases hb : r.Bootstrapped
    · obtain ⟨w, hw1⟩ := hw hb (hnull hno hb)
      exact ⟨w, _, _, _, hw1⟩
    · exfalso
      obtain ⟨pre, e1, k, hp, hk, hf1, hm, hq, -⟩ := Run.shape_fail hv hb
      rw [hp] at he
      simp only [List.mem_append, List.mem_cons, List.mem_singleton, List.not_mem_nil,
        or_false] at he
      rcases he with he | he | he
      · have : 7 ∈ List.range' 1 (k - 1) := by
          rw [← hm]
          exact List.mem_filterMap.2 ⟨e, he, h7⟩
        have hk7 := (Event.bootStep_le hk).2
        simp only [List.mem_range'_1] at this
        omega
      · subst he
        rw [hf] at hf1
        cases hf1
      · subst he
        simp [Event.bootStep] at h7
  · intro w dpy surf ctx
    obtain ⟨r8, r9, r10, r11, err, -, -, -, -, htr, -⟩ := teardown_run d w dpy surf ctx
    rw [newCalls_spec _ _ _ htr]
    exact ⟨r8, _, rfl⟩

/-- C8 at a concrete input: on `okDriver` the run returns `EGL_TRUE`, so every
bootstrap and teardown step was made and none failed. -/
theorem main_result_witness :
    (main okDriver).1.trace.filterMap Event.bootStep = [1, 2, 3, 4, 5, 6, 7] ∧
      (main okDriver).1.trace.filterMap Event.teardownStep = [1, 2, 3, 4] ∧
      ∀ e ∈ (main okDriver).1.trace, e.isLifecycle = true → e.failed = false :=
  (main_result okDriver).2.1.1 (by decide)

/-- C8 fails as stated: on a driver on which every bootstrap call succeeds and
`eglQueryString` gives `NULL` for `EGL_EXTENSIONS`, the run ends at line 203
without `main` returning, so `main` returns neither `EGL_TRUE` nor `EGL_FALSE`.
All seven bootstrap steps were made and no bootstrap or teardown call of the run
failed; no teardown call was made. -/
theorem main_aborts_on_null_extensions :
    (main nullExtensionsDriver).2 = .aborted ∧
    (main nullExtensionsDriver).1.trace =
      [.eglGetDisplay EGL_DEFAULT_DISPLAY 1, .eglInitialize 1 1 5 EGL_TRUE,
       .eglGetConfigs 1 1 EGL_TRUE, .eglChooseConfig 1 attribList 1 1 1 EGL_TRUE,
       .eglGetConfigAttrib 1 1 EGL_BIND_TO_TEXTURE_RGB 0 EGL_TRUE,
       .eglGetConfigAttrib 1 1 EGL_BIND_TO_TEXTURE_RGBA 0 EGL_TRUE,
       .eglGetConfigAttrib 1 1 EGL_CONFORMANT 0 EGL_TRUE,
       .eglGetConfigAttrib 1 1 EGL_MAX_PBUFFER_WIDTH 0 EGL_TRUE,
       .eglGetConfigAttrib 1 1 EGL_MAX_PBUFFER_HEIGHT 0 EGL_TRUE,
       .eglGetConfigAttrib 1 1 EGL_MAX_PBUFFER_PIXELS 0 EGL_TRUE,
       .eglGetConfigAttrib 1 1 EGL_NATIVE_RENDERABLE 0 EGL_TRUE,
       .eglGetConfigAttrib 1 1 EGL_NATIVE_VISUAL_ID 0 EGL_TRUE,
       .eglGetConfigAttrib 1 1 EGL_NATIVE_VISUAL_TYPE 0 EGL_TRUE,
       .eglGetConfigAttrib 1 1 EGL_RENDERABLE_TYPE 0 EGL_TRUE,
       .eglGetConfigAttrib 1 1 EGL_SURFACE_TYPE 0 EGL_TRUE,
       .eglCreatePbufferSurface 1 1 pbufferAttribs 2,
       .eglCreateContext 1 1 EGL_NO_CONTEXT contextAttribs 3,
       .eglMakeCurrent 1 2 2 3 EGL_TRUE,
       .eglQueryString 1 EGL_VENDOR (some ""),
       .eglQueryString 1 EGL_VERSION (some ""),
       .eglQueryString 1 EGL_EXTENSIONS none] ∧
    (∀ e ∈ (main nullExtensionsDriver).1.trace, e.isLifecycle = true → e.failed = false) ∧
    (main nullExtensionsDriver).1.trace.filterMap Event.bootStep = [1, 2, 3, 4, 5, 6, 7] ∧
    (main nullExtensionsDriver).1.trace.filterMap Event.teardownStep = [] := by
  decide

/-! ## Bitmask decoding -/

theorem reportedFlags_decodeWith (table : List (String × Int)) (v : Int) :
    reportedFlags (decodeWith table v) = knownFlags table v := by
  induction table with
  | nil => rfl
  | cons fb t ih =>
    simp only [decodeWith, reportedFlags, knownFlags, List.map_cons, List.filterMap_cons,
      List.filter_cons] at ih ⊢
    by_cases h : Int.land v fb.2 = 0
    · simp [h]
      simpa [decodeWith, reportedFlags, knownFlags] using ih
    · simp [h]
      simpa [decodeWith, reportedFlags, knownFlags] using ih

theorem knownFlags_perm {t t' : List (String × Int)} (h : t'.Perm t) (v : Int) (f : String) :
    f ∈ knownFlags t' v ↔ f ∈ knownFlags t v := by
  simp only [knownFlags, List.mem_map, List.mem_filter, h.mem_iff]

theorem configDump_out (d : Driver) (w : World) (dpy cfg : Nat) (n : Int) :
    ∃ pre v1 r1 v2 r2, (configDump d w dpy cfg n).out =
        pre ++ decodeRenderableType v1 ++ decodeSurfaceType v2 ∧
      Event.eglGetConfigAttrib dpy cfg EGL_RENDERABLE_TYPE v1 r1 ∈
        (configDump d w dpy cfg n).trace ∧
      Event.eglGetConfigAttrib dpy cfg EGL_SURFACE_TYPE v2 r2 ∈
        (configDump d w dpy cfg n).trace := by
  unfold configDump
  simp only [printConfigAttrib, World.emit, World.print]
  exact ⟨_, _, _, _, _, rfl,
    List.mem_append_left _ (List.mem_append_right _ (List.mem_singleton_self _)),
    List.mem_append_right _ (List.mem_singleton_self _)⟩

/-- C9: for every raw value, the lines decoding the renderable-type and the
surface-type bitmask report, for each known bit, the value AND that bit; the
flags reported non-zero are exactly the known bits whose AND with the value is
non-zero; decoding the known bits in any other order reports the same flags; and
the lines `main` prints are this function of the value the driver gave. -/
theorem decode_bitmasks (v : Int) :
    decodeRenderableType v = decodeWith renderableBits v ∧
    decodeSurfaceType v = decodeWith surfaceBits v ∧
    reportedFlags (decodeRenderableType v) = knownFlags renderableBits v ∧
    reportedFlags (decodeSurfaceType v) = knownFlags surfaceBits v ∧
    (∀ t, t.Perm renderableBits → ∀ f,
      f ∈ reportedFlags (decodeWith t v) ↔ f ∈ reportedFlags (decodeRenderableType v)) ∧
    (∀ t, t.Perm surfaceBits → ∀ f,
      f ∈ reportedFlags (decodeWith t v) ↔ f ∈ reportedFlags (decodeSurfaceType v)) ∧
    (∀ (d : Driver) (w : World) (dpy cfg : Nat) (n : Int),
      ∃ pre v1 r1 v2 r2, (configDump d w dpy cfg n).out =
          pre ++ decodeRenderableType v1 ++ decodeSurfaceType v2 ∧
        Event.eglGetConfigAttrib dpy cfg EGL_RENDERABLE_TYPE v1 r1 ∈
          (configDump d w dpy cfg n).trace ∧
        Event.eglGetConfigAttrib dpy cfg EGL_SURFACE_TYPE v2 r2 ∈
          (configDump d w dpy cfg n).trace) := by
  have e1 : decodeRenderableType v = decodeWith renderableBits v := rfl
  have e2 : decodeSurfaceType v = decodeWith surfaceBits v := rfl
  refine ⟨e1, e2, ?_, ?_, ?_, ?_, configDump_out⟩
  · rw [e1, reportedFlags_decodeWith]
  · rw [e2, reportedFlags_decodeWith]
  · intro t ht f
    rw [e1, reportedFlags_decodeWith, reportedFlags_decodeWith]
    exact knownFlags_perm ht v f
  · intro t ht f
    rw [e2, reportedFlags_decodeWith, reportedFlags_decodeWith]
    exact knownFlags_perm ht v f


/-! ## Tokenization of the extension string -/

theorem split_at_indexOf (c : Char) (l : List Char) (h : l.indexOf c < l.length) :
    l = l.take (l.indexOf c) ++ c :: l.drop (l.indexOf c + 1) ∧ c ∉ l.take (l.indexOf c) := by
  induction l with
  | nil => simp at h
  | cons x xs ih =>
    by_cases hx : x = c
    · subst hx
      simp [List.indexOf_cons_self]
    · rw [List.indexOf_cons_ne _ hx] at h ⊢
      have h' : xs.indexOf c < xs.length := by
        simpa using h
      obtain ⟨e1, e2⟩ := ih h'
      constructor
      · simp only [List.take_succ_cons, List.drop_succ_cons, List.cons_append]
        rw [← e1]
      · simp only [List.take_succ_cons, List.mem_cons, not_or]
        exact ⟨fun hc => hx hc.symm, e2⟩

theorem intercalate_cons_cons (sep p q : List Char) (ps : List (List Char)) :
    sep.intercalate (p :: q :: ps) = p ++ sep ++ sep.intercalate (q :: ps) := by
  simp [List.intercalate, List.intersperse]

/-- The tokenization loop entered at `start` prints the pieces of the rest of the
string. -/
theorem extLoop_from (exts : List Char) (start : Nat) (w : World) :
    ∃ pieces : List (List Char),
      extLoop exts start w =
        ⟨w.trace,
          w.out ++ pieces.map fun p => Out.cout [.str "  ", .str (String.mk p), .endl]⟩ ∧
      (∀ p ∈ pieces, ' ' ∉ p) ∧
      pieces.length = (exts.drop start).count ' ' + 1 ∧
      [' '].intercalate pieces = exts.drop start := by
  induction start, w using extLoop.induct exts with
  | case1 start w h =>
    have hn : ' ' ∉ exts.drop start := by
      unfold find at h
      simp only at h
      split_ifs at h with hlt
      exact fun hm => hlt (List.indexOf_lt_length.2 hm)
    refine ⟨[exts.drop start], ?_, ?_, ?_, ?_⟩
    · rw [extLoop, h]
      simp [World.print, substrFrom]
    · simpa using hn
    · simp [List.count_eq_zero.2 hn]
    · simp [List.intercalate]
  | case2 start w pos h ih =>
    unfold find at h
    simp only at h
    split_ifs at h with hlt
    simp only [Option.some.injEq] at h
    obtain ⟨e1, e2⟩ := split_at_indexOf ' ' (exts.drop start) hlt
    have hpos : pos - start = (exts.drop start).indexOf ' ' := by omega
    have hdrop : (exts.drop start).drop ((exts.drop start).indexOf ' ' + 1) =
        exts.drop (pos + 1) := by
      rw [List.drop_drop]
      congr 1
      omega
    rw [hdrop] at e1
    obtain ⟨pieces, q1, q2, q3, q4⟩ := ih
    have hne : pieces ≠ [] := by
      intro hnil
      rw [hnil] at q3
      simp at q3
    obtain ⟨q, qs, rfl⟩ := List.exists_cons_of_ne_nil hne
    refine ⟨(exts.drop start).take ((exts.drop start).indexOf ' ') :: q :: qs, ?_, ?_, ?_, ?_⟩
    · rw [extLoop]
      have hf : find exts ' ' start = some pos := by
        unfold find
        simp only [hlt, if_true, h]
      rw [hf]
      simp only []
      rw [q1]
      simp [World.print, substr, hpos]
    · intro p hp
      rcases List.mem_cons.1 hp with hp | hp
      · rw [hp]
        exact e2
      · exact q2 p hp
    · rw [List.length_cons, q3]
      conv_rhs => rw [e1]
      simp [List.count_append, List.count_cons, List.count_eq_zero.2 e2]
    · rw [intercalate_cons_cons, q4]
      conv_rhs => rw [e1]
      simp

/-- C10: for every extension string the tokenization loop ends, and the output
statements it adds are exactly the lines `"  " << piece << std::endl`, one per
piece and in order, where the pieces are those of the string split at every
space character: no piece holds a space, there is one more piece than there are
spaces (so the empty string gives the one line with the empty entry), and the
pieces joined by single spaces give back the string.  In `main` the string is the
one the driver gave for `EGL_EXTENSIONS`: on a driver whose `eglQueryString`
never gives `NULL`, the block of the EGL strings makes its three queries and
writes the vendor line, the version line, the heading and then these lines for
the pieces of the `EGL_EXTENSIONS` reply. -/
theorem extLoop_tokenizes (exts : List Char) (w : World) :
    (∃ pieces : List (List Char),
      extLoop exts 0 w =
        ⟨w.trace,
          w.out ++ pieces.map fun p => Out.cout [.str "  ", .str (String.mk p), .endl]⟩ ∧
      (∀ p ∈ pieces, ' ' ∉ p) ∧
      pieces.length = exts.count ' ' + 1 ∧
      [' '].intercalate pieces = exts ∧
      pieces = exts.splitOn ' ') ∧
    extLoop [] 0 w = ⟨w.trace, w.out ++ [Out.cout [.str "  ", .str "", .endl]]⟩ ∧
    (∀ (d : Driver) (dpy : Nat), (∀ h x n, d.eglQueryString h x n ≠ none) →
      ∃ vendor version s,
        eglInfo d w dpy = .ok
          ⟨w.trace ++
            [.eglQueryString dpy EGL_VENDOR (some vendor),
             .eglQueryString dpy EGL_VERSION (some version),
             .eglQueryString dpy EGL_EXTENSIONS (some s)],
           w.out ++
            [.cout [.str "EGL_VENDOR: ", .cstr (some vendor), .endl],
             .cout [.str "EGL_VERSION: ", .cstr (some version), .endl],
             .cout [.str "EGL_EXTENSIONS: ", .endl]] ++
            (s.data.splitOn ' ').map fun p =>
              Out.cout [.str "  ", .str (String.mk p), .endl]⟩) := by
  have key : ∀ (l : List Char) (v : World), ∃ pieces : List (List Char),
      extLoop l 0 v =
        ⟨v.trace,
          v.out ++ pieces.map fun p => Out.cout [.str "  ", .str (String.mk p), .endl]⟩ ∧
      (∀ p ∈ pieces, ' ' ∉ p) ∧ pieces.length = l.count ' ' + 1 ∧
      [' '].intercalate pieces = l ∧ pieces = l.splitOn ' ' := by
    intro l v
    obtain ⟨pieces, h1, h2, h3, h4⟩ := extLoop_from l 0 v
    simp only [List.drop_zero] at h3 h4
    refine ⟨pieces, h1, h2, h3, h4, ?_⟩
    have hne : pieces ≠ [] := by
      intro hnil
      rw [hnil] at h3
      simp at h3
    rw [← h4]
    exact (List.splitOn_intercalate pieces ' ' h2 hne).symm
  refine ⟨key exts w, ?_, ?_⟩
  · obtain ⟨pieces, h1, -, -, -, h5⟩ := key [] w
    rw [h1, h5]
    rfl
  · intro d dpy hd
    unfold eglInfo
    simp only [World.emit, World.print]
    generalize hv : d.eglQueryString w.trace dpy EGL_VENDOR = vendor
    generalize hs : d.eglQueryString _ dpy EGL_VERSION = version
    generalize he : d.eglQueryString _ dpy EGL_EXTENSIONS = reply
    cases vendor with
    | none => exact absurd hv (hd _ _ _)
    | some vendor =>
    cases version with
    | none => exact absurd hs (hd _ _ _)
    | some version =>
    cases reply with
    | none => exact absurd he (hd _ _ _)
    | some s =>
    refine ⟨vendor, version, s, ?_⟩
    simp only []
    obtain ⟨pieces, h1, -, -, -, h5⟩ := key s.data
      ⟨w.trace ++ [Event.eglQueryString dpy EGL_VENDOR (some vendor)] ++
          [Event.eglQueryString dpy EGL_VERSION (some version)] ++
          [Event.eglQueryString dpy EGL_EXTENSIONS (some s)],
        w.out ++ [Out.cout [.str "EGL_VENDOR: ", .cstr (some vendor), .endl]] ++
          [Out.cout [.str "EGL_VERSION: ", .cstr (some version), .endl]] ++
          [Out.cout [.str "EGL_EXTENSIONS: ", .endl]]⟩
    subst h5
    rw [h1]
    simp only [List.append_assoc, List.singleton_append, List.cons_append, List.nil_append]

/-- C10 at a concrete input: for the string `"a  b "` (a doubled and a trailing
space) the loop writes the four lines of the entries `a`, empty, `b`, empty. -/
theorem extLoop_tokenizes_witness :
    extLoop "a  b ".data 0 World.init =
      ⟨[], [.cout [.str "  ", .str "a", .endl], .cout [.str "  ", .str "", .endl],
            .cout [.str "  ", .str "b", .endl], .cout [.str "  ", .str "", .endl]]⟩ := by
  obtain ⟨pieces, h1, -, -, -, h5⟩ := (extLoop_tokenizes "a  b ".data World.init).1
  rw [h1, h5]
  decide

end Glslc
